import Mathlib

/-!
Verification development for the mail-server repository (Stalwart snapshot).

Shallow embedding of the code under scrutiny:
  * crates/jmap/src/blob/get.rs        (blob_get, blob_lookup)
  * crates/jmap/src/changes/write.rs   (begin_changes / assign_change_id / commit_changes)
  * crates/smtp/src/queue/dsn.rs       (send_dsn / build_dsn / handle_double_bounce / writers)
  * crates/smtp/src/scripts/plugins/query.rs (exec)

Machine integers are modelled as Nat with explicit bounds where overflow
matters (usize saturating arithmetic).  Byte strings are List Nat (each < 256).
External collaborator crates (sha1/sha2, base64 encoder of mail_builder,
UTF-8 validation of core::str) are modelled by their published standard
algorithms (FIPS 180-4, RFC 4648, RFC 3629).
-/

set_option maxRecDepth 40000

namespace MailServer

/-- usize::MAX for the 64-bit targets the server runs on. -/
def USIZE_MAX : Nat := 2 ^ 64 - 1

/-- u64::MAX, the sentinel used by ChangeLogBuilder for an unassigned change id. -/
def U64_MAX : Nat := 2 ^ 64 - 1

/-- Rust usize::saturating_add. -/
def satAdd (a b : Nat) : Nat := min (a + b) USIZE_MAX

/-! ## UTF-8 (model of core::str::from_utf8 validity and of String::as_bytes) -/

/-- A UTF-8 continuation byte: 0x80 ..= 0xBF. -/
def isCont (b : Nat) : Bool := 0x80 ≤ b && b ≤ 0xBF

/-- Strict UTF-8 decoder over bytes, following RFC 3629 exactly as Rust's
core::str::from_utf8 does: overlong forms, surrogates and values above
U+10FFFF are rejected.  Returns the decoded characters, or none when the
byte string is not valid UTF-8. -/
def utf8Decode : List Nat → Option (List Char)
  | [] => some []
  | b :: bs =>
    if b ≤ 0x7F then
      (utf8Decode bs).map (fun cs => Char.ofNat b :: cs)
    else if 0xC2 ≤ b && b ≤ 0xDF then
      match bs with
      | b1 :: bs1 =>
        if isCont b1 then
          (utf8Decode bs1).map (fun cs => Char.ofNat ((b - 0xC0) * 0x40 + (b1 - 0x80)) :: cs)
        else none
      | [] => none
    else if 0xE0 ≤ b && b ≤ 0xEF then
      match bs with
      | b1 :: b2 :: bs2 =>
        let okB1 : Bool :=
          if b = 0xE0 then 0xA0 ≤ b1 && b1 ≤ 0xBF
          else if b = 0xED then 0x80 ≤ b1 && b1 ≤ 0x9F
          else isCont b1
        if okB1 && isCont b2 then
          (utf8Decode bs2).map (fun cs =>
            Char.ofNat ((b - 0xE0) * 0x1000 + (b1 - 0x80) * 0x40 + (b2 - 0x80)) :: cs)
        else none
      | _ => none
    else if 0xF0 ≤ b && b ≤ 0xF4 then
      match bs with
      | b1 :: b2 :: b3 :: bs3 =>
        let okB1 : Bool :=
          if b = 0xF0 then 0x90 ≤ b1 && b1 ≤ 0xBF
          else if b = 0xF4 then 0x80 ≤ b1 && b1 ≤ 0x8F
          else isCont b1
        if okB1 && isCont b2 && isCont b3 then
          (utf8Decode bs3).map (fun cs =>
            Char.ofNat ((b - 0xF0) * 0x40000 + (b1 - 0x80) * 0x1000 +
              (b2 - 0x80) * 0x40 + (b3 - 0x80)) :: cs)
        else none
      | _ => none
    else none

/-- The string carried by a valid UTF-8 byte range (empty on invalid input). -/
def utf8Str (bs : List Nat) : String := String.mk ((utf8Decode bs).getD [])

/-- UTF-8 encoder for one scalar value (model of String::as_bytes, per char). -/
def utf8EncodeChar (c : Char) : List Nat :=
  let n := c.toNat
  if n ≤ 0x7F then [n]
  else if n ≤ 0x7FF then [0xC0 + n / 0x40, 0x80 + n % 0x40]
  else if n ≤ 0xFFFF then [0xE0 + n / 0x1000, 0x80 + n / 0x40 % 0x40, 0x80 + n % 0x40]
  else [0xF0 + n / 0x40000, 0x80 + n / 0x1000 % 0x40, 0x80 + n / 0x40 % 0x40, 0x80 + n % 0x40]

/-- UTF-8 encoding of a string: model of Rust String::as_bytes. -/
def utf8Encode (s : String) : List Nat := s.data.flatMap utf8EncodeChar

/-! ## Base64 (model of mail_builder::encoders::base64::base64_encode,
standard RFC 4648 alphabet with padding, no line wrapping) -/

/-- The standard base64 alphabet. -/
def b64Alphabet : List Char :=
  "ABCDEFGHIJKLMNOPQRSTUVWXYZabcdefghijklmnopqrstuvwxyz0123456789+/".data

/-- One alphabet symbol. -/
def b64Char (n : Nat) : Char := b64Alphabet.getD n 'A'

/-- RFC 4648 base64 encoding of a byte string. -/
def base64Encode : List Nat → List Char
  | [] => []
  | [a] => [b64Char (a / 4), b64Char (a % 4 * 16), '=', '=']
  | [a, b] => [b64Char (a / 4), b64Char (a % 4 * 16 + b / 16), b64Char (b % 16 * 4), '=']
  | a :: b :: c :: rest =>
    b64Char (a / 4) :: b64Char (a % 4 * 16 + b / 16) ::
      b64Char (b % 16 * 4 + c / 64) :: b64Char (c % 64) :: base64Encode rest

/-- Base64 encoding as a String. -/
def base64Str (bs : List Nat) : String := String.mk (base64Encode bs)

/-! ## SHA-1 / SHA-256 / SHA-512 (models of the sha1/sha2 crates, FIPS 180-4) -/

/-- Truncation to a word of the given bit width. -/
def mW (bits n : Nat) : Nat := n % 2 ^ bits

/-- Right rotation of a `bits`-wide word. -/
def rotr (bits x k : Nat) : Nat := x / 2 ^ k + x % 2 ^ k * 2 ^ (bits - k)

/-- Left rotation of a 32-bit word. -/
def rotl32 (x k : Nat) : Nat := rotr 32 x (32 - k)

/-- Big-endian value of a byte list. -/
def beVal (bs : List Nat) : Nat := bs.foldl (fun acc b => acc * 256 + b) 0

/-- The `k` big-endian bytes of `n`. -/
def beBytes (k n : Nat) : List Nat :=
  (List.range k).map (fun i => n / 2 ^ (8 * (k - 1 - i)) % 256)

/-- Split a list into chunks of `k` elements, fuelled so that the kernel can
evaluate it (the fuel is the list length, enough since `k > 0` in all uses). -/
def chunksOfAux (k : Nat) : Nat → List Nat → List (List Nat)
  | 0, _ => []
  | _ + 1, [] => []
  | fuel + 1, a :: l =>
    (a :: l).take k :: chunksOfAux k fuel ((a :: l).drop k)

/-- Split a list into chunks of `k` elements (`k > 0`). -/
def chunksOf (k : Nat) (l : List Nat) : List (List Nat) := chunksOfAux k l.length l

/-- Merkle–Damgård padding: append 0x80, zeros, then the bit length on
`lenBytes` bytes, reaching a multiple of `blockBytes`. -/
def shaPad (blockBytes lenBytes : Nat) (msg : List Nat) : List Nat :=
  let zeros := (blockBytes - (msg.length + lenBytes + 1) % blockBytes) % blockBytes
  msg ++ 0x80 :: (List.replicate zeros 0 ++ beBytes lenBytes (8 * msg.length))

/-- Extend a message schedule by `n` further words, each produced from the
current schedule. -/
def extendSched (step : List Nat → Nat) : Nat → List Nat → List Nat
  | 0, w => w
  | n + 1, w => extendSched step n (w ++ [step w])

/-- Eight-word hash state of the SHA-2 family. -/
structure ShaState where
  sa : Nat
  sb : Nat
  sc : Nat
  sd : Nat
  se : Nat
  sf : Nat
  sg : Nat
  sh : Nat
deriving Repr, DecidableEq

/-- Parameters distinguishing SHA-256 from SHA-512. -/
structure Sha2Params where
  bits : Nat
  r0 : Nat × Nat × Nat
  r1 : Nat × Nat × Nat
  s0 : Nat × Nat × Nat
  s1 : Nat × Nat × Nat
  kTable : List Nat
  initState : ShaState

/-- One SHA-2 schedule word from the 16 preceding ones. -/
def sha2SchedStep (p : Sha2Params) (w : List Nat) : Nat :=
  let w15 := w.getD (w.length - 15) 0
  let w2 := w.getD (w.length - 2) 0
  let w16 := w.getD (w.length - 16) 0
  let w7 := w.getD (w.length - 7) 0
  let sig0 := rotr p.bits w15 p.s0.1 ^^^ rotr p.bits w15 p.s0.2.1 ^^^ w15 / 2 ^ p.s0.2.2
  let sig1 := rotr p.bits w2 p.s1.1 ^^^ rotr p.bits w2 p.s1.2.1 ^^^ w2 / 2 ^ p.s1.2.2
  mW p.bits (w16 + sig0 + w7 + sig1)

/-- One SHA-2 compression round. -/
def sha2Round (p : Sha2Params) (st : ShaState) (kw : Nat × Nat) : ShaState :=
  let mask := 2 ^ p.bits - 1
  let bigS1 := rotr p.bits st.se p.r1.1 ^^^ rotr p.bits st.se p.r1.2.1 ^^^ rotr p.bits st.se p.r1.2.2
  let ch := st.se &&& st.sf ^^^ (mask ^^^ st.se) &&& st.sg
  let temp1 := mW p.bits (st.sh + bigS1 + ch + kw.2 + kw.1)
  let bigS0 := rotr p.bits st.sa p.r0.1 ^^^ rotr p.bits st.sa p.r0.2.1 ^^^ rotr p.bits st.sa p.r0.2.2
  let maj := st.sa &&& st.sb ^^^ st.sa &&& st.sc ^^^ st.sb &&& st.sc
  let temp2 := mW p.bits (bigS0 + maj)
  ⟨mW p.bits (temp1 + temp2), st.sa, st.sb, st.sc,
    mW p.bits (st.sd + temp1), st.se, st.sf, st.sg⟩

/-- Process one 16-word block. -/
def sha2Block (p : Sha2Params) (h : ShaState) (block : List Nat) : ShaState :=
  let rounds := p.kTable.length - 16
  let w := extendSched (sha2SchedStep p) rounds block
  let f := (w.zip p.kTable).foldl (sha2Round p) h
  ⟨mW p.bits (h.sa + f.sa), mW p.bits (h.sb + f.sb), mW p.bits (h.sc + f.sc),
    mW p.bits (h.sd + f.sd), mW p.bits (h.se + f.se), mW p.bits (h.sf + f.sf),
    mW p.bits (h.sg + f.sg), mW p.bits (h.sh + f.sh)⟩

/-- The full SHA-2 digest of a byte string. -/
def sha2 (p : Sha2Params) (msg : List Nat) : List Nat :=
  let wordBytes := p.bits / 8
  let padded := shaPad (wordBytes * 16) (wordBytes * 2) msg
  let words := (chunksOf wordBytes padded).map beVal
  let blocks := chunksOf 16 words
  let h := blocks.foldl (sha2Block p) p.initState
  [h.sa, h.sb, h.sc, h.sd, h.se, h.sf, h.sg, h.sh].flatMap (beBytes wordBytes)

/-- SHA-256 round constants. -/
def K256 : List Nat := [
  1116352408, 1899447441, 3049323471, 3921009573, 961987163,
  1508970993, 2453635748, 2870763221, 3624381080, 310598401,
  607225278, 1426881987, 1925078388, 2162078206, 2614888103,
  3248222580, 3835390401, 4022224774, 264347078, 604807628,
  770255983, 1249150122, 1555081692, 1996064986, 2554220882,
  2821834349, 2952996808, 3210313671, 3336571891, 3584528711,
  113926993, 338241895, 666307205, 773529912, 1294757372,
  1396182291, 1695183700, 1986661051, 2177026350, 2456956037,
  2730485921, 2820302411, 3259730800, 3345764771, 3516065817,
  3600352804, 4094571909, 275423344, 430227734, 506948616,
  659060556, 883997877, 958139571, 1322822218, 1537002063,
  1747873779, 1955562222, 2024104815, 2227730452, 2361852424,
  2428436474, 2756734187, 3204031479, 3329325298]

/-- SHA-512 round constants. -/
def K512 : List Nat := [
  4794697086780616226, 8158064640168781261, 13096744586834688815,
  16840607885511220156, 4131703408338449720, 6480981068601479193,
  10538285296894168987, 12329834152419229976, 15566598209576043074,
  1334009975649890238, 2608012711638119052, 6128411473006802146,
  8268148722764581231, 9286055187155687089, 11230858885718282805,
  13951009754708518548, 16472876342353939154, 17275323862435702243,
  1135362057144423861, 2597628984639134821, 3308224258029322869,
  5365058923640841347, 6679025012923562964, 8573033837759648693,
  10970295158949994411, 12119686244451234320, 12683024718118986047,
  13788192230050041572, 14330467153632333762, 15395433587784984357,
  489312712824947311, 1452737877330783856, 2861767655752347644,
  3322285676063803686, 5560940570517711597, 5996557281743188959,
  7280758554555802590, 8532644243296465576, 9350256976987008742,
  10552545826968843579, 11727347734174303076, 12113106623233404929,
  14000437183269869457, 14369950271660146224, 15101387698204529176,
  15463397548674623760, 17586052441742319658, 1182934255886127544,
  1847814050463011016, 2177327727835720531, 2830643537854262169,
  3796741975233480872, 4115178125766777443, 5681478168544905931,
  6601373596472566643, 7507060721942968483, 8399075790359081724,
  8693463985226723168, 9568029438360202098, 10144078919501101548,
  10430055236837252648, 11840083180663258601, 13761210420658862357,
  14299343276471374635, 14566680578165727644, 15097957966210449927,
  16922976911328602910, 17689382322260857208, 500013540394364858,
  748580250866718886, 1242879168328830382, 1977374033974150939,
  2944078676154940804, 3659926193048069267, 4368137639120453308,
  4836135668995329356, 5532061633213252278, 6448918945643986474,
  6902733635092675308, 7801388544844847127]

/-- SHA-256 parameter block. -/
def sha256Params : Sha2Params where
  bits := 32
  r0 := (2, 13, 22)
  r1 := (6, 11, 25)
  s0 := (7, 18, 3)
  s1 := (17, 19, 10)
  kTable := K256
  initState := ⟨1779033703, 3144134277, 1013904242, 2773480762,
    1359893119, 2600822924, 528734635, 1541459225⟩

/-- SHA-512 parameter block. -/
def sha512Params : Sha2Params where
  bits := 64
  r0 := (28, 34, 39)
  r1 := (14, 18, 41)
  s0 := (1, 8, 7)
  s1 := (19, 61, 6)
  kTable := K512
  initState := ⟨7640891576956012808, 13503953896175478587, 4354685564936845355,
    11912009170470909681, 5840696475078001361, 11170449401992604703,
    2270897969802886507, 6620516959819538809⟩

/-- SHA-256 of a byte string. -/
def sha256 (msg : List Nat) : List Nat := sha2 sha256Params msg

/-- SHA-512 of a byte string. -/
def sha512 (msg : List Nat) : List Nat := sha2 sha512Params msg

/-- One SHA-1 schedule word from the 16 preceding ones. -/
def sha1SchedStep (w : List Nat) : Nat :=
  let w3 := w.getD (w.length - 3) 0
  let w8 := w.getD (w.length - 8) 0
  let w14 := w.getD (w.length - 14) 0
  let w16 := w.getD (w.length - 16) 0
  rotl32 (w3 ^^^ w8 ^^^ w14 ^^^ w16) 1

/-- Five-word SHA-1 state. -/
structure Sha1State where
  h0 : Nat
  h1 : Nat
  h2 : Nat
  h3 : Nat
  h4 : Nat
deriving Repr, DecidableEq

/-- One SHA-1 compression round (`i` is the round index). -/
def sha1Round (st : Sha1State) (iw : Nat × Nat) : Sha1State :=
  let i := iw.1
  let wi := iw.2
  let mask := 2 ^ 32 - 1
  let fk : Nat × Nat :=
    if i < 20 then (st.h1 &&& st.h2 ^^^ (mask ^^^ st.h1) &&& st.h3, 1518500249)
    else if i < 40 then (st.h1 ^^^ st.h2 ^^^ st.h3, 1859775393)
    else if i < 60 then (st.h1 &&& st.h2 ^^^ st.h1 &&& st.h3 ^^^ st.h2 &&& st.h3, 2400959708)
    else (st.h1 ^^^ st.h2 ^^^ st.h3, 3395469782)
  let temp := mW 32 (rotl32 st.h0 5 + fk.1 + st.h4 + fk.2 + wi)
  ⟨temp, st.h0, rotl32 st.h1 30, st.h2, st.h3⟩

/-- Process one SHA-1 block. -/
def sha1Block (h : Sha1State) (block : List Nat) : Sha1State :=
  let w := extendSched sha1SchedStep 64 block
  let f := w.enum.foldl sha1Round h
  ⟨mW 32 (h.h0 + f.h0), mW 32 (h.h1 + f.h1), mW 32 (h.h2 + f.h2),
    mW 32 (h.h3 + f.h3), mW 32 (h.h4 + f.h4)⟩

/-- SHA-1 of a byte string. -/
def sha1 (msg : List Nat) : List Nat :=
  let padded := shaPad 64 8 msg
  let words := (chunksOf 4 padded).map beVal
  let blocks := chunksOf 16 words
  let h := blocks.foldl sha1Block ⟨1732584193, 4023233417, 2562383102, 271733878, 3285377520⟩
  [h.h0, h.h1, h.h2, h.h3, h.h4].flatMap (beBytes 4)

/-! ## JMAP data model shared by blob/get.rs (types from jmap_proto and store) -/

/-- store::BlobKind (crates/store): the three blob identity variants. -/
inductive BlobKind
  | linked (accountId : Nat) (collection : Nat) (documentId : Nat)
  | linkedMaildir (accountId : Nat) (documentId : Nat)
  | temporary (accountId : Nat) (timestamp : Nat) (seq : Nat)
deriving DecidableEq, Repr

/-- The account a blob kind belongs to. -/
def BlobKind.accountId : BlobKind → Nat
  | .linked a _ _ => a
  | .linkedMaildir a _ => a
  | .temporary a _ _ => a

/-- jmap_proto BlobId.  The optional section (sub-range slice) is not
consulted by the functions embedded here, so only the kind is carried. -/
structure BlobId where
  kind : BlobKind
deriving DecidableEq, Repr

/-- jmap_proto DataProperty: the three forms of the `data` property. -/
inductive DataProperty
  | default
  | asText
  | asBase64
deriving DecidableEq, Repr

/-- jmap_proto DigestProperty: the three digest algorithms of Blob/get. -/
inductive DigestProperty
  | sha
  | sha256
  | sha512
deriving DecidableEq, Repr

/-- jmap_proto Property, restricted to the constructors blob_get handles;
`other` stands for every remaining property (all reach the `_` arm). -/
inductive Property
  | id
  | size
  | dataProp (d : DataProperty)
  | digest (d : DigestProperty)
  | isTruncated
  | isEncodingProblem
  | other
deriving DecidableEq, Repr

/-- jmap_proto Value, restricted to the payloads blob_get produces. -/
inductive Value
  | null
  | text (s : String)
  | num (n : Nat)
  | boolean (b : Bool)
  | blobIdVal (b : BlobId)
deriving DecidableEq, Repr

/-- Blob/get arguments: optional offset and length. -/
structure GetArguments where
  offset : Option Nat
  length : Option Nat
deriving DecidableEq, Repr

/-- blob/get.rs: `range_from = request.arguments.offset.unwrap_or(0)`. -/
def rangeFromOf (args : GetArguments) : Nat := args.offset.getD 0

/-- blob/get.rs: `range_to = length.map(|l| range_from.saturating_add(l)).unwrap_or(usize::MAX)`. -/
def rangeToOf (args : GetArguments) : Nat :=
  match args.length with
  | some l => satAdd (rangeFromOf args) l
  | none => USIZE_MAX

/-- Rust `bytes.get(a..b).unwrap_or_default()`: the sub-slice when
`a ≤ b ≤ len`, the empty slice otherwise. -/
def sliceGet (bytes : List Nat) (a b : Nat) : List Nat :=
  if a ≤ b ∧ b ≤ bytes.length then (bytes.drop a).take (b - a) else []

/-- blob/get.rs lines 77-90: computation of `bytes_range` and of the
`isTruncated` append.  Returns the sliced range and whether
`IsTruncated: true` was appended to the result object. -/
def blobRange (rangeFrom rangeTo : Nat) (bytes : List Nat) : List Nat × Bool :=
  if rangeFrom = 0 ∧ rangeTo = USIZE_MAX then (bytes, false)
  else if rangeTo ≠ USIZE_MAX ∧ rangeTo > bytes.length then
    (sliceGet bytes rangeFrom bytes.length, true)
  else
    (sliceGet bytes rangeFrom rangeTo, false)

/-- blob/get.rs lines 92-158: the body of the property loop for one
property.  Returns the `(property, value)` pairs appended to the result
object by this iteration, `IsEncodingProblem` appends included, in append
order. -/
def processProperty (bid : BlobId) (bytes bytesRange : List Nat) :
    Property → List (Property × Value)
  | .id => [(.id, .blobIdVal bid)]
  | .size => [(.size, .num bytes.length)]
  | .digest .sha => [(.digest .sha, .text (base64Str (sha1 bytesRange)))]
  | .digest .sha256 => [(.digest .sha256, .text (base64Str (sha256 bytesRange)))]
  | .digest .sha512 => [(.digest .sha512, .text (base64Str (sha512 bytesRange)))]
  | .dataProp .asText =>
    match utf8Decode bytesRange with
    | some cs => [(.dataProp .asText, .text (String.mk cs))]
    | none => [(.isEncodingProblem, .boolean true), (.dataProp .asText, .null)]
  | .dataProp .asBase64 => [(.dataProp .asBase64, .text (base64Str bytesRange))]
  | .dataProp .default =>
    match utf8Decode bytesRange with
    | some cs => [(.dataProp .asText, .text (String.mk cs))]
    | none =>
      [(.isEncodingProblem, .boolean true), (.dataProp .asBase64, .text (base64Str bytesRange))]
  | .isTruncated => [(.isTruncated, .null)]
  | .isEncodingProblem => [(.isEncodingProblem, .null)]
  | .other => [(.other, .null)]

/-- blob/get.rs: the complete result object for one downloaded blob: the
`IsTruncated` append (if any) followed by the appends of the property loop. -/
def blobGetEntry (properties : List Property) (bid : BlobId) (bytes : List Nat)
    (args : GetArguments) : List (Property × Value) :=
  let pair := blobRange (rangeFromOf args) (rangeToOf args) bytes
  (if pair.2 then [(Property.isTruncated, Value.boolean true)] else [])
    ++ properties.flatMap (processProperty bid bytes pair.1)

/-! ## blob_lookup (blob/get.rs lines 165-283) -/

/-- jmap_proto MethodError, restricted to the variants the embedded
functions produce. -/
inductive MethodError
  | serverPartialFail
  | unknownDataType
deriving DecidableEq, Repr

/-- jmap_proto MaybeUnparsable: a parsed value or the unparsable raw text. -/
inductive MaybeUnparsable (α : Type)
  | value (v : α)
  | parseError (raw : String)
deriving DecidableEq, Repr

/-- jmap_proto DataType, restricted to the constructors blob_lookup treats
specially; `otherType` stands for the rest. -/
inductive DataType
  | email
  | mailbox
  | thread
  | otherType (tag : Nat)
deriving DecidableEq, Repr

/-- Modelled from the spec: `DataType::try_from(Collection::from(u8))` of
jmap_proto/store (collection numbering is not part of src/); the spec's data
model lists Email, Mailbox and Thread collections, here with the crate's
numeric tags 2, 3, 4; every other tag has no data type. -/
def dataTypeOfCollection (c : Nat) : Option DataType :=
  if c = 2 then some .email
  else if c = 3 then some .mailbox
  else if c = 4 then some .thread
  else none

/-- Modelled from the spec: `Id::from_parts(thread_id, document_id)` —
"id encodes (thread_id, document_id) as a 64-bit value". -/
def idFromParts (threadId documentId : Nat) : Nat := threadId * 2 ^ 32 + documentId

/-- Blob/lookup request. -/
structure BlobLookupRequest where
  accountId : Nat
  typeNames : List (MaybeUnparsable DataType)
  ids : List (MaybeUnparsable BlobId)

/-- One Blob/lookup result entry. -/
structure BlobInfo where
  id : BlobId
  matchedIds : List (DataType × List Nat)
deriving DecidableEq, Repr

/-- Blob/lookup response. -/
structure BlobLookupResponse where
  accountId : Nat
  list : List BlobInfo
  notFound : List (MaybeUnparsable BlobId)
deriving DecidableEq, Repr

/-- The store reads blob_lookup performs, as total functions (the
`get_property` calls for `Property::ThreadId` and `Property::MailboxIds`). -/
structure LookupStore where
  threadIdOf : Nat → Nat → Option Nat
  mailboxIdsOf : Nat → Nat → Option (List Nat)

/-- blob/get.rs lines 206-275: processing of one id of a Blob/lookup
request.  Returns the entry to push to `list`, or the id to push to
`not_found`.  The dead inner `account_id != req_account_id` re-check of the
`Linked` arm is kept as in the source. -/
def lookupOneId (store : LookupStore) (includeEmail includeMailbox includeThread : Bool)
    (typeNames : List DataType) (reqAccountId : Nat) (id : MaybeUnparsable BlobId) :
    Sum BlobInfo (MaybeUnparsable BlobId) :=
  match id with
  | .parseError raw => .inr (.parseError raw)
  | .value bid =>
    match bid.kind with
    | .linked accountId collection documentId =>
      if accountId = reqAccountId then
        if accountId ≠ reqAccountId then .inr (.value bid)
        else
          match dataTypeOfCollection collection with
          | some dataType =>
            if typeNames.contains dataType then
              .inl ⟨bid, [(dataType, [documentId])]⟩
            else .inl ⟨bid, []⟩
          | none => .inl ⟨bid, []⟩
      else .inr (.value bid)
    | .linkedMaildir accountId documentId =>
      if accountId = reqAccountId then
        let emailThread : List (DataType × List Nat) :=
          if includeEmail || includeThread then
            match store.threadIdOf reqAccountId documentId with
            | some threadId =>
              (if includeEmail then [(DataType.email, [idFromParts threadId documentId])] else [])
                ++ (if includeThread then [(DataType.thread, [threadId])] else [])
            | none => []
          else []
        let mailboxPart : List (DataType × List Nat) :=
          if includeMailbox then
            match store.mailboxIdsOf reqAccountId documentId with
            | some mailboxes => [(DataType.mailbox, mailboxes)]
            | none => []
          else []
        .inl ⟨bid, emailThread ++ mailboxPart⟩
      else .inr (.value bid)
    | .temporary accountId _ _ =>
      if accountId = reqAccountId then .inl ⟨bid, []⟩
      else .inr (.value bid)

/-- blob/get.rs: the loop over `request.ids`, accumulating `list` and
`not_found` in order. -/
def lookupIds (store : LookupStore) (includeEmail includeMailbox includeThread : Bool)
    (typeNames : List DataType) (reqAccountId : Nat) :
    List (MaybeUnparsable BlobId) → List BlobInfo × List (MaybeUnparsable BlobId)
  | [] => ([], [])
  | id :: rest =>
    let tail := lookupIds store includeEmail includeMailbox includeThread typeNames
      reqAccountId rest
    match lookupOneId store includeEmail includeMailbox includeThread typeNames
      reqAccountId id with
    | .inl info => (info :: tail.1, tail.2)
    | .inr nf => (tail.1, nf :: tail.2)

/-- blob/get.rs lines 170-199: parse the requested type names, recording
which of Email/Mailbox/Thread are included; any unparsable name aborts with
`MethodError::UnknownDataType`. -/
def parseTypeNames : List (MaybeUnparsable DataType) →
    Except MethodError (List DataType × Bool × Bool × Bool)
  | [] => .ok ([], false, false, false)
  | .parseError _ :: _ => .error .unknownDataType
  | .value v :: rest =>
    match parseTypeNames rest with
    | .error e => .error e
    | .ok (vs, ie, im, it) =>
      .ok (v :: vs, ie || v = DataType.email, im || v = DataType.mailbox,
        it || v = DataType.thread)

/-- blob/get.rs blob_lookup: the whole method. -/
def blobLookup (store : LookupStore) (request : BlobLookupRequest) :
    Except MethodError BlobLookupResponse :=
  match parseTypeNames request.typeNames with
  | .error e => .error e
  | .ok (typeNames, includeEmail, includeMailbox, includeThread) =>
    let pair := lookupIds store includeEmail includeMailbox includeThread typeNames
      request.accountId request.ids
    .ok ⟨request.accountId, pair.1, pair.2⟩

/-! ## Change log (changes/write.rs) -/

/-- store::write::log::ChangeLogBuilder: the change id (u64::MAX while
unassigned) and the accumulated typed operations, kept opaque as pairs of
(collection, encoded op). -/
structure ChangeLogBuilder where
  changeId : Nat
  changes : List (Nat × Nat)
deriving DecidableEq, Repr

/-- `ChangeLogBuilder::with_change_id`. -/
def ChangeLogBuilder.withChangeId (id : Nat) : ChangeLogBuilder := ⟨id, []⟩

/-- A committed change-log record. -/
structure ChangeRecord where
  accountId : Nat
  changeId : Nat
  changes : List (Nat × Nat)
deriving DecidableEq, Repr

/-- The store as seen by changes/write.rs: a per-account change-id counter,
the committed records, and the outcomes of the two store operations
(`assign_change_id` and `write`), modelling whether the store errors. -/
structure ChangeStore where
  nextChangeId : Nat → Nat
  log : List ChangeRecord
  assignOk : Bool
  writeOk : Bool

/-- changes/write.rs assign_change_id: obtain a fresh id from the store; a
store failure is logged and surfaced as `MethodError::ServerPartialFail`. -/
def assignChangeId (st : ChangeStore) (accountId : Nat) :
    ChangeStore × Except MethodError Nat :=
  if st.assignOk then
    ({ st with nextChangeId := fun a =>
        if a = accountId then st.nextChangeId a + 1 else st.nextChangeId a },
      .ok (st.nextChangeId accountId))
  else (st, .error .serverPartialFail)

/-- changes/write.rs begin_changes: assign an id and open a builder. -/
def beginChanges (st : ChangeStore) (accountId : Nat) :
    ChangeStore × Except MethodError ChangeLogBuilder :=
  let pair := assignChangeId st accountId
  (pair.1, pair.2.map ChangeLogBuilder.withChangeId)

/-- changes/write.rs commit_changes: assign an id if the builder has none,
write the accumulated record as one batch, and return the committed state;
a failed store write surfaces as `MethodError::ServerPartialFail`. -/
def commitChanges (st : ChangeStore) (accountId : Nat) (changes : ChangeLogBuilder) :
    ChangeStore × Except MethodError Nat :=
  let assigned : ChangeStore × Except MethodError Nat :=
    if changes.changeId = U64_MAX then assignChangeId st accountId
    else (st, .ok changes.changeId)
  match assigned with
  | (st1, .error e) => (st1, .error e)
  | (st1, .ok state) =>
    if st1.writeOk then
      ({ st1 with log := st1.log ++ [⟨accountId, state, changes.changes⟩] }, .ok state)
    else (st1, .error .serverPartialFail)

/-! ## Sieve query plugin (scripts/plugins/query.rs) -/

/-- Rust `u8::to_ascii_lowercase`. -/
def toAsciiLower (b : Nat) : Nat := if 65 ≤ b ∧ b ≤ 90 then b + 32 else b

/-- Rust `<[u8]>::eq_ignore_ascii_case`. -/
def eqIgnoreAsciiCase (xs ys : List Nat) : Bool :=
  xs.map toAsciiLower = ys.map toAsciiLower

/-- Rust `bytes.get(..n)`: the first `n` bytes when there are at least `n`. -/
def bytesPrefix (n : Nat) (bs : List Nat) : Option (List Nat) :=
  if n ≤ bs.length then some (bs.take n) else none

/-- query.rs lines 85-89: `query.as_bytes().get(..6).map_or(false, |q|
q.eq_ignore_ascii_case(b"SELECT"))`. -/
def isSelectQuery (q : String) : Bool :=
  match bytesPrefix 6 (utf8Encode q) with
  | some p => eqIgnoreAsciiCase p (utf8Encode "SELECT")
  | none => false

/-- How the plugin executes a query: an early return with a constant result,
a row-returning `directory.query`, or a boolean-returning `directory.lookup`
mutation. -/
inductive ExecAction
  | noExec (result : Bool)
  | runQuery (q : String)
  | runLookup (q : String)
deriving DecidableEq, Repr

/-- query.rs exec: the dispatch on directory existence, query emptiness and
the SELECT check (the argument marshalling and the result shaping of the
chosen call do not affect which call runs and are not modelled). -/
def execAction (knownDirectory : Bool) (q : String) : ExecAction :=
  if !knownDirectory then .noExec false
  else if q = "" then .noExec false
  else if isSelectQuery q then .runQuery q
  else .runLookup q

/-- Modelled from the spec: "Queries whose first token is `SELECT`
(case-insensitive) return rows" — the first whitespace-delimited token of
the query. -/
def firstToken (q : String) : String :=
  String.mk ((q.data.dropWhile Char.isWhitespace).takeWhile (fun c => !c.isWhitespace))

/-- The claim's condition: the first token is SELECT, case-insensitively. -/
def firstTokenIsSelect (q : String) : Bool :=
  eqIgnoreAsciiCase (utf8Encode (firstToken q)) (utf8Encode "SELECT")

/-! ## SMTP queue DSN generation (queue/dsn.rs) -/

/-- Modelled from the spec: the recipient flag bits (`RCPT_NOTIFY_*` come
from the smtp_proto crate and `RCPT_DSN_SENT`/`RCPT_STATUS_CHANGED` from
queue/mod.rs, neither under src/).  The spec only fixes that "Flags are a
bitmask including DSN_SENT, STATUS_CHANGED, NOTIFY_SUCCESS, NOTIFY_DELAY,
NOTIFY_FAILURE, NOTIFY_NEVER"; distinct bits are chosen here. -/
def RCPT_NOTIFY_SUCCESS : Nat := 1

/-- Recipient flag bit, see `RCPT_NOTIFY_SUCCESS`. -/
def RCPT_NOTIFY_FAILURE : Nat := 2

/-- Recipient flag bit, see `RCPT_NOTIFY_SUCCESS`. -/
def RCPT_NOTIFY_DELAY : Nat := 4

/-- Recipient flag bit, see `RCPT_NOTIFY_SUCCESS`. -/
def RCPT_NOTIFY_NEVER : Nat := 8

/-- Recipient flag bit, see `RCPT_NOTIFY_SUCCESS`. -/
def RCPT_DSN_SENT : Nat := 16

/-- Recipient flag bit, see `RCPT_NOTIFY_SUCCESS`. -/
def RCPT_STATUS_CHANGED : Nat := 32

/-- Modelled from the spec: `Recipient::has_flag` of queue/mod.rs (not under
src/) — a bitmask test; `has_flag(A | B)` holds when any of the given bits
is set, which is how dsn.rs uses it to skip `DSN_SENT` as well as
`NOTIFY_NEVER` recipients. -/
def hasFlag (flags flag : Nat) : Bool := flags &&& flag ≠ 0

/-- smtp_proto Response: SMTP reply code, enhanced status triple, text. -/
structure SmtpResponse where
  code : Nat
  esc0 : Nat
  esc1 : Nat
  esc2 : Nat
  message : String
deriving DecidableEq, Repr

/-- queue ErrorDetails: entity plus free-form details. -/
structure ErrorDetails where
  entity : String
  details : String
deriving DecidableEq, Repr

/-- queue HostResponse, parameterised like the source. -/
structure HostResponse (S : Type) where
  hostname : S
  response : SmtpResponse
deriving DecidableEq, Repr

/-- queue Error: the delivery error taxonomy of queue/mod.rs as used by
dsn.rs. -/
inductive Error
  | unexpectedResponse (r : HostResponse ErrorDetails)
  | dnsError (s : String)
  | connectionError (d : ErrorDetails)
  | tlsError (d : ErrorDetails)
  | daneError (d : ErrorDetails)
  | mtaStsError (s : String)
  | rateLimited
  | concurrencyLimited
  | ioErr (s : String)
deriving DecidableEq, Repr

/-- queue Status, parameterised like the source. -/
inductive Status (T : Type) (E : Type)
  | scheduled
  | completed (v : T)
  | temporaryFailure (e : E)
  | permanentFailure (e : E)
deriving DecidableEq, Repr

/-- Per-recipient status: `Status<HostResponse<String>, HostResponse<ErrorDetails>>`. -/
abbrev RcptStatus := Status (HostResponse String) (HostResponse ErrorDetails)

/-- Per-domain status: `Status<(), Error>`. -/
abbrev DomStatus := Status Unit Error

/-- queue Schedule: attempt counter plus a deadline (Instants are Nats). -/
structure Schedule where
  inner : Nat
  due : Nat
deriving DecidableEq, Repr

/-- queue Domain. -/
structure Domain where
  domain : String
  retry : Schedule
  notify : Schedule
  expires : Nat
  status : DomStatus
  changed : Bool
deriving DecidableEq, Repr

/-- queue Recipient. -/
structure Recipient where
  address : String
  domainIdx : Nat
  orcpt : Option String
  flags : Nat
  status : RcptStatus
deriving DecidableEq, Repr

/-- queue Message (the fields dsn.rs reads; the spool path and sizes feed
only the header-snippet file read, which is I/O outside this embedding). -/
structure Message where
  id : Nat
  returnPath : String
  recipients : List Recipient
  domains : List Domain
  envId : Option String
  created : Nat
deriving DecidableEq, Repr

/-- The parts of QueueConfig that dsn.rs evaluates: the per-envelope notify
schedule (keyed by sender and destination domain) and the reporting
hostname. -/
structure QueueConfig where
  notifySchedule : String → String → List Nat
  hostname : String

/-- Modelled from the spec: queue/mod.rs `instant_to_timestamp` (not under
src/) converts a deadline Instant to a unix timestamp; with Nat instants it
is the instant itself. -/
def instantToTimestamp (_now instant : Nat) : Nat := instant

/-- Modelled from the spec: `DateTime::from_timestamp(..).to_rfc822()` of
the external mail_parser crate, rendered as an opaque CRLF-free token
carrying the timestamp. -/
def rfc822Date (ts : Nat) : String := "@" ++ toString ts

/-- A single-quote string, used by the DSN text formats. -/
def sq : String := String.mk ['\x27']

/-- CRLF. -/
def crlf : String := String.mk ['\x0d', '\x0a']

/-- dsn.rs `write_response`: the response text with CR and LF stripped. -/
def writeResponse (r : SmtpResponse) : String :=
  String.mk (r.message.data.filter (fun c => c ≠ '\n' && c ≠ '\r'))

/-- dsn.rs `write_dsn_status` on a Response: the enhanced status triple, or
one derived from the reply code when esc[0] = 0. -/
def respDsnStatus (r : SmtpResponse) : String :=
  if r.esc0 > 0 then
    toString r.esc0 ++ "." ++ toString r.esc1 ++ "." ++ toString r.esc2
  else
    toString (r.code / 100) ++ "." ++ toString (r.code / 10 % 10) ++ "." ++ toString (r.code % 10)

/-- dsn.rs `write_dsn_diagnostic` on a Response. -/
def respDsnDiagnostic (r : SmtpResponse) : String :=
  "Diagnostic-Code: smtp;" ++ toString r.code ++ " " ++ writeResponse r ++ crlf

/-- The `({a}.{b}.{c})` esc triple as printed by the text lines. -/
def escTriple (r : SmtpResponse) : String :=
  "(" ++ toString r.esc0 ++ "." ++ toString r.esc1 ++ "." ++ toString r.esc2 ++ ")"

/-- dsn.rs `HostResponse<String>::write_dsn_text`: the human-readable
success line. -/
def writeDsnTextDelivered (h : HostResponse String) (addr : String) : String :=
  "<" ++ addr ++ "> (delivered to " ++ sq ++ h.hostname ++ sq ++ " with code "
    ++ toString h.response.code ++ " " ++ escTriple h.response ++ " " ++ sq
    ++ writeResponse h.response ++ sq ++ ")" ++ crlf

/-- dsn.rs `HostResponse<ErrorDetails>::write_dsn_text`: the human-readable
rejection line. -/
def writeDsnTextRejected (h : HostResponse ErrorDetails) (addr : String) : String :=
  "<" ++ addr ++ "> (host " ++ sq ++ h.hostname.entity ++ sq ++ " rejected "
    ++ (if h.hostname.details ≠ "" then "command " ++ sq ++ h.hostname.details ++ sq
        else "transaction")
    ++ " with code " ++ toString h.response.code ++ " " ++ escTriple h.response ++ " " ++ sq
    ++ writeResponse h.response ++ sq ++ ")" ++ crlf

/-- dsn.rs `Error::write_dsn_text`: the human-readable line for a
domain-level error. -/
def errorDsnText (e : Error) (addr domain : String) : String :=
  match e with
  | .unexpectedResponse r => writeDsnTextRejected r addr
  | .dnsError err =>
    "<" ++ addr ++ "> (failed to lookup " ++ sq ++ domain ++ sq ++ ": " ++ err ++ ")" ++ crlf
  | .connectionError d =>
    "<" ++ addr ++ "> (connection to " ++ sq ++ d.entity ++ sq ++ " failed: "
      ++ d.details ++ ")" ++ crlf
  | .tlsError d =>
    "<" ++ addr ++ "> (TLS error from " ++ sq ++ d.entity ++ sq ++ ": "
      ++ d.details ++ ")" ++ crlf
  | .daneError d =>
    "<" ++ addr ++ "> (DANE failed to authenticate " ++ sq ++ d.entity ++ sq ++ ": "
      ++ d.details ++ ")" ++ crlf
  | .mtaStsError details =>
    "<" ++ addr ++ "> (MTA-STS failed to authenticate " ++ sq ++ domain ++ sq ++ ": "
      ++ details ++ ")" ++ crlf
  | .rateLimited => "<" ++ addr ++ "> (rate limited)" ++ crlf
  | .concurrencyLimited =>
    "<" ++ addr ++ "> (too many concurrent connections to remote server)" ++ crlf
  | .ioErr err => "<" ++ addr ++ "> (queue error: " ++ err ++ ")" ++ crlf

/-- dsn.rs `Recipient::write_dsn`: optional Original-Recipient, then
Final-Recipient. -/
def rcptWriteDsn (r : Recipient) : String :=
  (match r.orcpt with
   | some o => "Original-Recipient: rfc822;" ++ o ++ crlf
   | none => "")
    ++ "Final-Recipient: rfc822;" ++ r.address ++ crlf

/-- dsn.rs `write_dsn_action` (shared by both Status instantiations). -/
def statusDsnAction {T E : Type} (st : Status T E) : String :=
  "Action: "
    ++ (match st with
        | .completed _ => "delivered"
        | .permanentFailure _ => "failed"
        | .temporaryFailure _ => "delayed"
        | .scheduled => "delayed")
    ++ crlf

/-- dsn.rs `Status<HostResponse<String>, HostResponse<ErrorDetails>>::write_dsn_status`. -/
def rcptStatusDsnStatus (st : RcptStatus) : String :=
  "Status: "
    ++ (match st with
        | .completed h => respDsnStatus h.response
        | .permanentFailure h => respDsnStatus h.response
        | .temporaryFailure h => respDsnStatus h.response
        | .scheduled => "")
    ++ crlf

/-- dsn.rs `..::write_dsn_diagnostic` for the per-recipient status. -/
def rcptStatusDsnDiagnostic (st : RcptStatus) : String :=
  match st with
  | .permanentFailure h => respDsnDiagnostic h.response
  | .temporaryFailure h => respDsnDiagnostic h.response
  | _ => ""

/-- dsn.rs `..::write_dsn_remote_mta` for the per-recipient status. -/
def rcptStatusDsnRemoteMta (st : RcptStatus) : String :=
  "Remote-MTA: dns;"
    ++ (match st with
        | .completed h => h.hostname
        | .permanentFailure h => h.hostname.entity
        | .temporaryFailure h => h.hostname.entity
        | .scheduled => "")
    ++ crlf

/-- dsn.rs `Status<HostResponse<..>,..>::write_dsn`: action, status,
diagnostic, remote MTA — in this source order. -/
def rcptStatusDsn (st : RcptStatus) : String :=
  statusDsnAction st ++ rcptStatusDsnStatus st ++ rcptStatusDsnDiagnostic st
    ++ rcptStatusDsnRemoteMta st

/-- dsn.rs `Status<(), Error>::write_dsn_status`. -/
def domStatusDsnStatus (st : DomStatus) : String :=
  match st with
  | .permanentFailure e =>
    "Status: "
      ++ (match e with
          | .unexpectedResponse r => respDsnStatus r.response
          | _ => "5.0.0")
      ++ crlf
  | .temporaryFailure e =>
    "Status: "
      ++ (match e with
          | .unexpectedResponse r => respDsnStatus r.response
          | _ => "4.0.0")
      ++ crlf
  | _ => ""

/-- dsn.rs `Status<(), Error>::write_dsn_diagnostic`. -/
def domStatusDsnDiagnostic (st : DomStatus) : String :=
  match st with
  | .permanentFailure (.unexpectedResponse r) => respDsnDiagnostic r.response
  | .temporaryFailure (.unexpectedResponse r) => respDsnDiagnostic r.response
  | _ => ""

/-- dsn.rs `Status<(), Error>::write_dsn_remote_mta`. -/
def domStatusDsnRemoteMta (st : DomStatus) : String :=
  match st with
  | .permanentFailure e =>
    (match e with
     | .unexpectedResponse r => "Remote-MTA: dns;" ++ r.hostname.entity ++ crlf
     | .connectionError d => "Remote-MTA: dns;" ++ d.entity ++ crlf
     | .tlsError d => "Remote-MTA: dns;" ++ d.entity ++ crlf
     | .daneError d => "Remote-MTA: dns;" ++ d.entity ++ crlf
     | _ => "")
  | .temporaryFailure e =>
    (match e with
     | .unexpectedResponse r => "Remote-MTA: dns;" ++ r.hostname.entity ++ crlf
     | .connectionError d => "Remote-MTA: dns;" ++ d.entity ++ crlf
     | .tlsError d => "Remote-MTA: dns;" ++ d.entity ++ crlf
     | .daneError d => "Remote-MTA: dns;" ++ d.entity ++ crlf
     | _ => "")
  | _ => ""

/-- dsn.rs `Status<(), Error>::write_dsn`: action, status, diagnostic,
remote MTA — in this source order. -/
def domStatusDsn (st : DomStatus) : String :=
  statusDsnAction st ++ domStatusDsnStatus st ++ domStatusDsnDiagnostic st
    ++ domStatusDsnRemoteMta st

/-- dsn.rs `Domain::write_dsn_will_retry_until`. -/
def domainWillRetryUntil (now : Nat) (d : Domain) : String :=
  if d.expires > now then
    "Will-Retry-Until: " ++ rfc822Date (instantToTimestamp now d.expires) ++ crlf
  else ""

/-- dsn.rs `Message::write_dsn_headers`: Reporting-MTA, Arrival-Date,
optional Original-Envelope-Id, blank line. -/
def writeDsnHeaders (msg : Message) (reportingMta : String) : String :=
  "Reporting-MTA: dns;" ++ reportingMta ++ crlf
    ++ "Arrival-Date: " ++ rfc822Date msg.created ++ crlf
    ++ (match msg.envId with
        | some e => "Original-Envelope-Id: " ++ e ++ crlf
        | none => "")
    ++ crlf

/-- The Domain used when a recipient's `domain_idx` is out of range (Rust
would panic; the queue never produces such messages). -/
def defaultDomain : Domain := ⟨"", ⟨0, 0⟩, ⟨0, 0⟩, 0, .scheduled, false⟩

/-- The Recipient used for out-of-range index reads in statements. -/
def defaultRecipient : Recipient := ⟨"", 0, none, 0, .scheduled⟩

/-- Which text section of the DSN a recipient's line lands in. -/
inductive TxtBucket
  | success
  | delay
  | failed
deriving DecidableEq, Repr

/-- The outcome of one iteration of build_dsn's recipient loop: the
(possibly flag-updated) recipient, the bytes appended to the
delivery-status part, and the text line with its section. -/
structure RcptOut where
  rcpt : Recipient
  block : String
  txt : Option (TxtBucket × String)
deriving DecidableEq, Repr

/-- dsn.rs lines 82-158: one iteration of build_dsn's loop over
`self.message.recipients`.  Mirrors the source arm for arm, including the
flag updates that happen before the NOTIFY_* checks, the guard fallthroughs
to `continue`, and the stray CRLF of the Scheduled/Completed arm. -/
def processRecipient (now : Nat) (domains : List Domain) (r : Recipient) : RcptOut :=
  if hasFlag r.flags (RCPT_DSN_SENT ||| RCPT_NOTIFY_NEVER) then ⟨r, "", none⟩
  else
    let domain := domains.getD r.domainIdx defaultDomain
    match r.status with
    | .completed response =>
      let r1 := { r with flags := r.flags ||| (RCPT_DSN_SENT ||| RCPT_STATUS_CHANGED) }
      if !hasFlag r1.flags RCPT_NOTIFY_SUCCESS then ⟨r1, "", none⟩
      else
        ⟨r1, rcptWriteDsn r ++ rcptStatusDsn r.status ++ crlf,
          some (.success, writeDsnTextDelivered response r.address)⟩
    | .temporaryFailure response =>
      if domain.notify.due ≤ now ∧ hasFlag r.flags RCPT_NOTIFY_DELAY then
        ⟨r, rcptWriteDsn r ++ rcptStatusDsn r.status ++ domainWillRetryUntil now domain ++ crlf,
          some (.delay, writeDsnTextRejected response r.address)⟩
      else ⟨r, "", none⟩
    | .permanentFailure response =>
      let r1 := { r with flags := r.flags ||| (RCPT_DSN_SENT ||| RCPT_STATUS_CHANGED) }
      if !hasFlag r1.flags RCPT_NOTIFY_FAILURE then ⟨r1, "", none⟩
      else
        ⟨r1, rcptWriteDsn r ++ rcptStatusDsn r.status ++ crlf,
          some (.failed, writeDsnTextRejected response r.address)⟩
    | .scheduled =>
      match domain.status with
      | .permanentFailure err =>
        let r1 := { r with flags := r.flags ||| (RCPT_DSN_SENT ||| RCPT_STATUS_CHANGED) }
        if !hasFlag r1.flags RCPT_NOTIFY_FAILURE then ⟨r1, "", none⟩
        else
          ⟨r1, rcptWriteDsn r ++ domStatusDsn domain.status ++ crlf,
            some (.failed, errorDsnText err r.address domain.domain)⟩
      | .temporaryFailure err =>
        if domain.notify.due ≤ now ∧ hasFlag r.flags RCPT_NOTIFY_DELAY then
          ⟨r,
            rcptWriteDsn r ++ domStatusDsn domain.status
              ++ domainWillRetryUntil now domain ++ crlf,
            some (.delay, errorDsnText err r.address domain.domain)⟩
        else ⟨r, "", none⟩
      | .scheduled =>
        if domain.notify.due ≤ now ∧ hasFlag r.flags RCPT_NOTIFY_DELAY then
          ⟨r,
            rcptWriteDsn r ++ domStatusDsn domain.status
              ++ domainWillRetryUntil now domain ++ crlf,
            some (.delay, errorDsnText .concurrencyLimited r.address domain.domain)⟩
        else ⟨r, "", none⟩
      | .completed _ => ⟨r, crlf, none⟩

/-- The accumulated output of build_dsn's recipient loop. -/
structure LoopOut where
  recipients : List Recipient
  dsn : String
  txtSuccess : String
  txtDelay : String
  txtFailed : String
deriving DecidableEq, Repr

/-- dsn.rs: the whole recipient loop, accumulating the delivery-status
bytes and the three text sections in recipient order. -/
def buildDsnLoop (now : Nat) (domains : List Domain) : List Recipient → LoopOut
  | [] => ⟨[], "", "", "", ""⟩
  | r :: rest =>
    let o := processRecipient now domains r
    let t := buildDsnLoop now domains rest
    ⟨o.rcpt :: t.recipients, o.block ++ t.dsn,
      (match o.txt with | some (.success, s) => s | _ => "") ++ t.txtSuccess,
      (match o.txt with | some (.delay, s) => s | _ => "") ++ t.txtDelay,
      (match o.txt with | some (.failed, s) => s | _ => "") ++ t.txtFailed⟩

/-- dsn.rs lines 163-228: subject selection and text assembly from the
three per-category sections. -/
def assembleText (ts td tf : String) : String × String :=
  let hasS := ts ≠ ""
  let hasD := td ≠ ""
  let hasF := tf ≠ ""
  let head : String × String × Bool :=
    if hasS ∧ ¬hasD ∧ ¬hasF then
      ("Successfully delivered message",
        "Your message has been successfully delivered to the following recipients:"
          ++ crlf ++ crlf, false)
    else if hasD ∧ ¬hasS ∧ ¬hasF then
      ("Warning: Delay in message delivery",
        "There was a temporary problem delivering your message to the following recipients:"
          ++ crlf ++ crlf, false)
    else if hasF ∧ ¬hasS ∧ ¬hasD then
      ("Failed to deliver message",
        "Your message could not be delivered to the following recipients:" ++ crlf ++ crlf,
        false)
    else if hasS then
      ("Partially delivered message",
        "Your message has been partially delivered:" ++ crlf ++ crlf, true)
    else
      ("Warning: Temporary and permanent failures during message delivery",
        "Your message could not be delivered to some recipients:" ++ crlf ++ crlf, true)
  let txt := head.2.1
    ++ (if hasS then
          (if head.2.2 then
            "    ----- Delivery to the following addresses was successful -----" ++ crlf
          else "") ++ ts ++ crlf
        else "")
    ++ (if hasD then
          (if head.2.2 then
            "    ----- There was a temporary problem delivering to these addresses -----" ++ crlf
          else "") ++ td ++ crlf
        else "")
    ++ (if hasF then
          (if head.2.2 then
            "    ----- Delivery to the following addresses failed -----" ++ crlf
          else "") ++ tf ++ crlf
        else "")
  (head.1, txt)

/-- dsn.rs line 234: `matches!(&domain.status, Status::TemporaryFailure(_) | Status::Scheduled)`. -/
def isTempOrScheduled (st : DomStatus) : Bool :=
  match st with
  | .temporaryFailure _ => true
  | .scheduled => true
  | _ => false

/-- dsn.rs lines 231-257: the post-loop notify-deadline bump for one
domain, applied when a delay section was emitted. -/
def updateNotify (cfg : QueueConfig) (returnPath : String) (now : Nat) (d : Domain) : Domain :=
  if isTempOrScheduled d.status ∧ d.notify.due ≤ now then
    match (cfg.notifySchedule returnPath d.domain).get? (d.notify.inner + 1) with
    | some dur =>
      { d with notify := ⟨d.notify.inner + 1, now + dur⟩, changed := true }
    | none => { d with notify := ⟨d.notify.inner, d.expires + 10⟩, changed := true }
  else d

/-- The DSN message payload produced by build_dsn (the multipart assembly
and the spool-file header snippet are file and builder I/O outside this
embedding; subject, text part and delivery-status part are carried). -/
structure DsnPayload where
  subject : String
  txt : String
  dsn : String
deriving DecidableEq, Repr

/-- dsn.rs build_dsn: runs the loop, persists the flag updates, returns
None when no text line was produced, otherwise bumps due notify deadlines
(when a delay line exists) and yields the payload. -/
def buildDsn (cfg : QueueConfig) (now : Nat) (msg : Message) : Message × Option DsnPayload :=
  let o := buildDsnLoop now msg.domains msg.recipients
  let msg1 := { msg with recipients := o.recipients }
  if o.txtSuccess.length + o.txtDelay.length + o.txtFailed.length = 0 then (msg1, none)
  else
    let st := assembleText o.txtSuccess o.txtDelay o.txtFailed
    let msg2 :=
      if o.txtDelay ≠ "" then
        { msg1 with domains := msg1.domains.map (updateNotify cfg msg.returnPath now) }
      else msg1
    (msg2, some ⟨st.1, st.2, writeDsnHeaders msg cfg.hostname ++ o.dsn⟩)

/-- dsn.rs lines 352-374: the body of handle_double_bounce's loop over the
recipients: an eligible permanently-failed recipient (directly or through
its domain) is marked DSN_SENT and yields its double-bounce line. -/
def doubleBounceStep (domains : List Domain) (r : Recipient) : Recipient × List String :=
  if !hasFlag r.flags (RCPT_DSN_SENT ||| RCPT_NOTIFY_NEVER) then
    match r.status with
    | .permanentFailure err =>
      ({ r with flags := r.flags ||| RCPT_DSN_SENT }, [writeDsnTextRejected err r.address])
    | .scheduled =>
      let domain := domains.getD r.domainIdx defaultDomain
      (match domain.status with
       | .permanentFailure err =>
         ({ r with flags := r.flags ||| RCPT_DSN_SENT },
           [errorDsnText err r.address domain.domain])
       | _ => (r, []))
    | _ => (r, [])
  else (r, [])

/-- dsn.rs handle_double_bounce: mark eligible permanently-failed
recipients DSN_SENT collecting their text lines, and push every due notify
deadline past expiry.  Returns the updated message and the collected
double-bounce lines (logged when non-empty). -/
def handleDoubleBounce (now : Nat) (msg : Message) : Message × List String :=
  let pairs := msg.recipients.map (doubleBounceStep msg.domains)
  let domains1 := msg.domains.map fun d =>
    if d.notify.due ≤ now then { d with notify := ⟨d.notify.inner, d.expires + 10⟩ } else d
  ({ msg with recipients := pairs.map Prod.fst, domains := domains1 },
    pairs.flatMap Prod.snd)

/-- dsn.rs send_dsn: build and queue a DSN for messages with a return path;
null-return-path messages go through handle_double_bounce instead.  Returns
the updated message, the queued DSN payload if any, and the double-bounce
log lines. -/
def sendDsn (cfg : QueueConfig) (now : Nat) (msg : Message) :
    Message × Option DsnPayload × List String :=
  if msg.returnPath ≠ "" then
    let o := buildDsn cfg now msg
    (o.1, o.2, [])
  else
    let o := handleDoubleBounce now msg
    (o.1, none, o.2)

/-- The per-recipient contributions of recipient `i` over a sequence of
build_dsn invocations at the given clock readings, each invocation acting
on the message the previous one returned. -/
def buildDsnEmissions (cfg : QueueConfig) :
    List Nat → Message → Nat → List (String × Option (TxtBucket × String))
  | [], _, _ => []
  | now :: rest, msg, i =>
    let o := processRecipient now msg.domains (msg.recipients.getD i defaultRecipient)
    (o.block, o.txt) :: buildDsnEmissions cfg rest (buildDsn cfg now msg).1 i

/-! ## Field-order observations on DSN blocks (for the layout claim) -/

/-- Split a character list at each CRLF (like the lines of the
delivery-status part). -/
def splitCrlf : List Char → List (List Char)
  | [] => [[]]
  | '\x0d' :: '\x0a' :: rest => [] :: splitCrlf rest
  | c :: rest =>
    match splitCrlf rest with
    | [] => [[c]]
    | l :: ls => (c :: l) :: ls

/-- The field labels of the non-empty lines of a block, each label being
the text before the first colon. -/
def lineLabels (s : String) : List String :=
  (splitCrlf s.data).filterMap fun l =>
    if l.isEmpty then none else some (String.mk (l.takeWhile (fun c => c ≠ ':')))

/-- Boolean subsequence test on label lists. -/
def isSubseqOf : List String → List String → Bool
  | [], _ => true
  | _ :: _, [] => false
  | x :: xs, y :: ys => if x = y then isSubseqOf xs ys else isSubseqOf (x :: xs) ys

/-- The per-recipient field order the claim states. -/
def claimedFieldOrder : List String :=
  ["Original-Recipient", "Final-Recipient", "Action", "Status",
    "Remote-MTA", "Diagnostic-Code", "Will-Retry-Until"]

/-- The per-recipient field order the code writes: Diagnostic-Code before
Remote-MTA. -/
def actualFieldOrder : List String :=
  ["Original-Recipient", "Final-Recipient", "Action", "Status",
    "Diagnostic-Code", "Remote-MTA", "Will-Retry-Until"]

/-- The label of a DSN field line: the text before the first colon. -/
def lineLabel (l : String) : String := String.mk (l.data.takeWhile (fun c => c ≠ ':'))

/-- Join lines, terminating each with CRLF. -/
def joinCrlf : List String → String
  | [] => ""
  | l :: ls => l ++ crlf ++ joinCrlf ls

/-- The action keyword of a status (claim-side restatement). -/
def dsnActionName {T E : Type} (st : Status T E) : String :=
  match st with
  | .completed _ => "delivered"
  | .permanentFailure _ => "failed"
  | .temporaryFailure _ => "delayed"
  | .scheduled => "delayed"

/-- The status-code text of a per-recipient status (claim-side restatement). -/
def rcptStatusCode (st : RcptStatus) : String :=
  match st with
  | .completed h => respDsnStatus h.response
  | .permanentFailure h => respDsnStatus h.response
  | .temporaryFailure h => respDsnStatus h.response
  | .scheduled => ""

/-- The remote MTA named by a per-recipient status (claim-side restatement). -/
def rcptRemoteName (st : RcptStatus) : String :=
  match st with
  | .completed h => h.hostname
  | .permanentFailure h => h.hostname.entity
  | .temporaryFailure h => h.hostname.entity
  | .scheduled => ""

/-- The optional Will-Retry-Until line of a block. -/
def willRetryLines (now : Nat) (dom : Domain) : List String :=
  if dom.expires > now then
    ["Will-Retry-Until: " ++ rfc822Date (instantToTimestamp now dom.expires)]
  else []

/-- The per-recipient block for a recipient-level status, as the list of its
field lines in the order the code writes them. -/
def rcptBlockLines (r : Recipient) (st : RcptStatus) : List String :=
  (match r.orcpt with
   | some o => ["Original-Recipient: rfc822;" ++ o]
   | none => [])
    ++ ["Final-Recipient: rfc822;" ++ r.address,
      "Action: " ++ dsnActionName st,
      "Status: " ++ rcptStatusCode st]
    ++ (match st with
        | .permanentFailure h =>
          ["Diagnostic-Code: smtp;" ++ toString h.response.code ++ " " ++ writeResponse h.response]
        | .temporaryFailure h =>
          ["Diagnostic-Code: smtp;" ++ toString h.response.code ++ " " ++ writeResponse h.response]
        | _ => [])
    ++ ["Remote-MTA: dns;" ++ rcptRemoteName st]

/-- The per-recipient block for a domain-level status, as the list of its
field lines in the order the code writes them. -/
def domBlockLines (r : Recipient) (st : DomStatus) (now : Nat) (dom : Domain) : List String :=
  (match r.orcpt with
   | some o => ["Original-Recipient: rfc822;" ++ o]
   | none => [])
    ++ ["Final-Recipient: rfc822;" ++ r.address,
      "Action: " ++ dsnActionName st]
    ++ (match st with
        | .permanentFailure e =>
          ["Status: "
            ++ (match e with
                | .unexpectedResponse rr => respDsnStatus rr.response
                | _ => "5.0.0")]
        | .temporaryFailure e =>
          ["Status: "
            ++ (match e with
                | .unexpectedResponse rr => respDsnStatus rr.response
                | _ => "4.0.0")]
        | _ => [])
    ++ (match st with
        | .permanentFailure (.unexpectedResponse rr) =>
          ["Diagnostic-Code: smtp;" ++ toString rr.response.code ++ " "
            ++ writeResponse rr.response]
        | .temporaryFailure (.unexpectedResponse rr) =>
          ["Diagnostic-Code: smtp;" ++ toString rr.response.code ++ " "
            ++ writeResponse rr.response]
        | _ => [])
    ++ (match st with
        | .permanentFailure e =>
          (match e with
           | .unexpectedResponse rr => ["Remote-MTA: dns;" ++ rr.hostname.entity]
           | .connectionError d => ["Remote-MTA: dns;" ++ d.entity]
           | .tlsError d => ["Remote-MTA: dns;" ++ d.entity]
           | .daneError d => ["Remote-MTA: dns;" ++ d.entity]
           | _ => [])
        | .temporaryFailure e =>
          (match e with
           | .unexpectedResponse rr => ["Remote-MTA: dns;" ++ rr.hostname.entity]
           | .connectionError d => ["Remote-MTA: dns;" ++ d.entity]
           | .tlsError d => ["Remote-MTA: dns;" ++ d.entity]
           | .daneError d => ["Remote-MTA: dns;" ++ d.entity]
           | _ => [])
        | _ => [])
    ++ willRetryLines now dom

/-- The opening lines of the delivery-status part. -/
def headerLines (msg : Message) (mta : String) : List String :=
  ["Reporting-MTA: dns;" ++ mta, "Arrival-Date: " ++ rfc822Date msg.created]
    ++ (match msg.envId with
        | some e => ["Original-Envelope-Id: " ++ e]
        | none => [])

/-! ## Spec-side definitions for refinement comparisons -/

/-- Modelled from the claim for Blob/get ranges: "the returned byte range
is [offset, offset+length) clamped to the blob size, and whenever the
requested end exceeds the blob size, isTruncated is set"; an absent length
is read as reaching to the end of the blob. -/
def claimedRangeSpec (offset length : Option Nat) (bytes : List Nat) : List Nat × Bool :=
  let f := offset.getD 0
  match length with
  | some l => ((bytes.drop f).take (min (f + l) bytes.length - f), decide (f + l > bytes.length))
  | none => ((bytes.drop f).take (bytes.length - f), false)

/-- The corrected condition for the query plugin: the first six bytes of
the query, compared ASCII-case-insensitively, spell SELECT. -/
def firstSixBytesSelect (q : String) : Bool :=
  6 ≤ (utf8Encode q).length
    && eqIgnoreAsciiCase ((utf8Encode q).take 6) (utf8Encode "SELECT")

/-- Whether a recipient's effective status at DSN time is a permanent
failure: its own status is PermanentFailure, or it is still Scheduled and
its domain's status is PermanentFailure. -/
def isPermFailedEff (domains : List Domain) (r : Recipient) : Bool :=
  match r.status with
  | .permanentFailure _ => true
  | .scheduled =>
    (match (domains.getD r.domainIdx defaultDomain).status with
     | .permanentFailure _ => true
     | _ => false)
  | _ => false

/-! ## Concrete fixtures used by witnesses and counterexamples -/

/-- A concrete change store whose next write fails. -/
def storeC1 : ChangeStore := ⟨fun _ => 5, [⟨1, 3, [(0, 0)]⟩], true, false⟩

/-- A concrete lookup store for the Blob/lookup witness. -/
def lstoreEx : LookupStore := ⟨fun _ _ => some 3, fun _ _ => some [1, 2]⟩

/-- A blob id owned by account 9, looked up from account 1. -/
def bidCross : BlobId := ⟨.linkedMaildir 9 4⟩

/-- A concrete Blob/lookup request from account 1 containing a cross-account
id and an own id. -/
def reqC3 : BlobLookupRequest :=
  ⟨1, [.value .email, .value .thread], [.value bidCross, .value ⟨.linkedMaildir 1 4⟩]⟩

/-- A concrete queue configuration for the DSN witnesses. -/
def cfgEx : QueueConfig := ⟨fun _ _ => [10, 20], "mail.example.org"⟩

/-- A permanently failed recipient already marked DSN_SENT. -/
def rcptSentEx : Recipient :=
  ⟨"user@dest.example", 0, none, RCPT_DSN_SENT ||| RCPT_NOTIFY_FAILURE,
    .permanentFailure ⟨⟨"mx.dest.example", ""⟩, ⟨550, 5, 0, 0, "rejected"⟩⟩⟩

/-- A concrete queue domain. -/
def domEx : Domain := ⟨"dest.example", ⟨0, 0⟩, ⟨0, 0⟩, 100, .scheduled, false⟩

/-- A concrete queued message holding the DSN_SENT recipient. -/
def msgC2 : Message := ⟨1, "sender@src.example", [rcptSentEx], [domEx], none, 0⟩

/-- A permanently failed recipient that is not yet notified. -/
def rcptPermEx : Recipient :=
  ⟨"a@dead.example", 0, none, RCPT_NOTIFY_FAILURE,
    .permanentFailure ⟨⟨"mx.dead.example", "RCPT TO"⟩, ⟨550, 5, 1, 1, "no such user"⟩⟩⟩

/-- A double-bounce message: empty return path, one eligible permanently
failed recipient, and a domain whose notify deadline is due. -/
def msgC7 : Message :=
  ⟨2, "", [rcptPermEx],
    [⟨"dead.example", ⟨0, 0⟩, ⟨1, 4⟩, 100, .permanentFailure (.dnsError "nxdomain"), false⟩],
    none, 0⟩

/-- A delivered recipient without NOTIFY_SUCCESS, not yet notified. -/
def rcptC10 : Recipient :=
  ⟨"ok@dest.example", 0, none, RCPT_NOTIFY_FAILURE,
    .completed ⟨"mx.dest.example", ⟨250, 2, 0, 0, "accepted"⟩⟩⟩

/-- A delayed recipient with NOTIFY_DELAY, not yet notified. -/
def rcptDelayEx : Recipient :=
  ⟨"later@dest.example", 0, none, RCPT_NOTIFY_DELAY,
    .temporaryFailure ⟨⟨"mx.dest.example", "DATA"⟩, ⟨451, 4, 7, 1, "greylisted"⟩⟩⟩

/-- A permanently failed, notifiable recipient with an Original-Recipient,
used to exhibit the field order of its per-recipient block. -/
def rcpt550 : Recipient :=
  ⟨"x@dead.example", 0, some "y@orig.example", RCPT_NOTIFY_FAILURE,
    .permanentFailure ⟨⟨"mx.dead.example", "RCPT TO"⟩, ⟨550, 5, 1, 1, "user unknown"⟩⟩⟩

/-! # Theorems -/

/-- Claim C4: every digest property of Blob/get is the base64 of the hash
of the sliced byte range only — the digest value never depends on the rest
of the blob — and on the 45-byte test blob with offset 4 and length 9 the
sha and sha-256 digests are exactly the strings the claim cites (and the
sliced text is "quick bro"). -/
theorem claim_C4 :
    (∀ (bid : BlobId) (bytes1 bytes2 bytesRange : List Nat) (d : DigestProperty),
      processProperty bid bytes1 bytesRange (.digest d)
        = processProperty bid bytes2 bytesRange (.digest d))
    ∧ (∀ (bid : BlobId) (bytes bytesRange : List Nat),
       processProperty bid bytes bytesRange (.digest .sha)
          = [(.digest .sha, .text (base64Str (sha1 bytesRange)))]
        ∧ processProperty bid bytes bytesRange (.digest .sha256)
          = [(.digest .sha256, .text (base64Str (sha256 bytesRange)))]
        ∧ processProperty bid bytes bytesRange (.digest .sha512)
          = [(.digest .sha512, .text (base64Str (sha512 bytesRange)))])
    ∧ blobGetEntry [.dataProp .asText, .digest .sha, .digest .sha256]
        ⟨.temporary 1 7 9⟩
        (utf8Encode "The quick brown fox jumped over the lazy dog.")
        ⟨some 4, some 9⟩
      = [(.dataProp .asText, .text "quick bro"),
         (.digest .sha, .text "QiRAPtfyX8K6tm1iOAtZ87Xj3Ww="),
         (.digest .sha256, .text "gdg9INW7lwHK6OQ9u0dwDz2ZY/gubi0En0xlFpKt0OA=")] := by
  refine ⟨fun bid b1 b2 rg d => ?_, fun bid b rg => ⟨rfl, rfl, rfl⟩, by decide⟩
  cases d <;> rfl

/-- Claim C5: for every sliced range, `data:asText` yields the decoded text
exactly when the slice is valid UTF-8 and otherwise null together with an
`isEncodingProblem: true` append; `data:asBase64` always yields the base64
of the slice; `data:Default` relabels to `data:asText` with the text when
the slice is valid UTF-8 and otherwise to `data:asBase64` with the base64
and the `isEncodingProblem: true` append. -/
theorem claim_C5 : ∀ (bid : BlobId) (bytes bytesRange : List Nat),
    processProperty bid bytes bytesRange (.dataProp .asText)
      = (if (utf8Decode bytesRange).isSome then
          [(.dataProp .asText, .text (utf8Str bytesRange))]
        else [(.isEncodingProblem, .boolean true), (.dataProp .asText, .null)])
    ∧ processProperty bid bytes bytesRange (.dataProp .asBase64)
      = [(.dataProp .asBase64, .text (base64Str bytesRange))]
    ∧ processProperty bid bytes bytesRange (.dataProp .default)
      = (if (utf8Decode bytesRange).isSome then
          [(.dataProp .asText, .text (utf8Str bytesRange))]
        else
          [(.isEncodingProblem, .boolean true),
            (.dataProp .asBase64, .text (base64Str bytesRange))]) := by
  intro bid bytes rg
  refine ⟨?_, rfl, ?_⟩ <;>
    cases h : utf8Decode rg <;> simp [processProperty, utf8Str, h]

/-- Claim C6 (code divergence): on an 11-byte blob, a Blob/get request with
offset 5 and no length returns the empty byte range with no isTruncated,
whereas the claimed semantics ("[offset, offset+length) clamped to the blob
size") yields the 6-byte suffix; the code and the claimed range disagree at
this input. -/
theorem claim_C6_eval :
    blobRange (rangeFromOf ⟨some 5, none⟩) (rangeToOf ⟨some 5, none⟩)
        (utf8Encode "hello world")
      = ([], false)
    ∧ claimedRangeSpec (some 5) none (utf8Encode "hello world")
      = (utf8Encode " world", false)
    ∧ blobRange (rangeFromOf ⟨some 5, none⟩) (rangeToOf ⟨some 5, none⟩)
        (utf8Encode "hello world")
      ≠ claimedRangeSpec (some 5) none (utf8Encode "hello world") := by
  refine ⟨by decide, by decide, by decide⟩

/-- Claim C9 counterexample: the query "SELECTED name FROM users" has first
token SELECTED, not SELECT, yet the plugin executes it as a row-returning
query — the claimed iff with "first token is SELECT" is false here. -/
theorem claim_C9_counterexample :
    ¬ ((execAction true "SELECTED name FROM users"
          = ExecAction.runQuery "SELECTED name FROM users")
        ↔ firstTokenIsSelect "SELECTED name FROM users" = true) := by
  decide

/-- Claim C9 (amended): a non-empty query handed to the plugin of a known
directory is executed as a row-returning query exactly when its first six
bytes, compared ASCII-case-insensitively, spell SELECT, and as a
boolean-surfaced mutation exactly otherwise. -/
theorem claim_C9 (q : String) (hq : q ≠ "") :
    ((execAction true q = ExecAction.runQuery q) ↔ firstSixBytesSelect q = true)
    ∧ ((execAction true q = ExecAction.runLookup q) ↔ firstSixBytesSelect q = false) := by
  have hsel : isSelectQuery q = firstSixBytesSelect q := by
    unfold isSelectQuery firstSixBytesSelect bytesPrefix
    by_cases h : 6 ≤ (utf8Encode q).length
    · simp [h]
    · simp [h]
  unfold execAction
  rw [hsel]
  cases h2 : firstSixBytesSelect q <;> simp [hq, h2]

/-- Claim C9 witness: the SELECT dispatch settled at the concrete query
"select 1". -/
theorem claim_C9_witness :
    ("select 1" : String) ≠ ""
    ∧ (execAction true "select 1" = ExecAction.runQuery "select 1"
        ↔ firstSixBytesSelect "select 1" = true) :=
  ⟨by decide, (claim_C9 "select 1" (by decide)).1⟩

/-- Claim C1: when the store write fails, commit_changes returns the
ServerPartialFail method error and commits no change-log record — both for
an arbitrary builder and for the builder obtained from begin_changes — and
the change id obtained for the batch is not used up: the log after the
failed commit is the old log, so the batch's id appears in it only if it
already did before. -/
theorem claim_C1 (st : ChangeStore) (accountId : Nat) (b : ChangeLogBuilder)
    (st1 : ChangeStore) (b1 : ChangeLogBuilder)
    (hw : st.writeOk = false)
    (hb : beginChanges st accountId = (st1, .ok b1)) :
    (commitChanges st accountId b).2 = .error .serverPartialFail
    ∧ (commitChanges st accountId b).1.log = st.log
    ∧ (commitChanges st1 accountId b1).2 = .error .serverPartialFail
    ∧ (commitChanges st1 accountId b1).1.log = st.log
    ∧ (b1.changeId ∉ st.log.map ChangeRecord.changeId →
        b1.changeId ∉ (commitChanges st1 accountId b1).1.log.map ChangeRecord.changeId) := by
  have commitFail : ∀ (s : ChangeStore) (bb : ChangeLogBuilder), s.writeOk = false →
      (commitChanges s accountId bb).2 = .error .serverPartialFail
      ∧ (commitChanges s accountId bb).1.log = s.log := by
    intro s bb hwf
    unfold commitChanges assignChangeId
    by_cases hc : bb.changeId = U64_MAX
    · cases hA : s.assignOk
      · simp [hc, hA]
      · simp [hc, hA, hwf]
    · simp [hc, hwf]
  have hSt1 : st1.writeOk = false ∧ st1.log = st.log := by
    unfold beginChanges assignChangeId at hb
    cases hA : st.assignOk
    · rw [hA] at hb
      simp [Except.map] at hb
    · rw [hA] at hb
      simp [Except.map] at hb
      rw [← hb.1, hw]
      exact ⟨rfl, rfl⟩
  obtain ⟨h1, h2⟩ := commitFail st b hw
  obtain ⟨h3, h4⟩ := commitFail st1 b1 hSt1.1
  refine ⟨h1, h2, h3, by rw [h4, hSt1.2], ?_⟩
  intro hnot
  rw [h4, hSt1.2]
  exact hnot

/-- A cross-account id is routed to not_found by the per-id dispatch. -/
theorem lookupOneId_cross (store : LookupStore) (ie im it : Bool) (tn : List DataType)
    (reqId : Nat) (bid : BlobId) (h : bid.kind.accountId ≠ reqId) :
    lookupOneId store ie im it tn reqId (.value bid) = .inr (.value bid) := by
  obtain ⟨kind⟩ := bid
  cases kind <;>
    · simp only [BlobKind.accountId] at h
      simp [lookupOneId, h]

/-- A cross-account id that occurs among the requested ids ends up in the
accumulated not_found list. -/
theorem lookupIds_cross_mem (store : LookupStore) (ie im it : Bool) (tn : List DataType)
    (reqId : Nat) (bid : BlobId) (ids : List (MaybeUnparsable BlobId))
    (hmem : MaybeUnparsable.value bid ∈ ids) (hacct : bid.kind.accountId ≠ reqId) :
    MaybeUnparsable.value bid ∈ (lookupIds store ie im it tn reqId ids).2 := by
  induction ids with
  | nil => cases hmem
  | cons id rest ih =>
    rw [lookupIds]
    cases hmem with
    | head =>
      rw [lookupOneId_cross store ie im it tn reqId bid hacct]
      exact List.mem_cons_self _ _
    | tail _ hmemRest =>
      have htail := ih hmemRest
      cases hcase : lookupOneId store ie im it tn reqId id with
      | inl info => simpa [hcase] using htail
      | inr nf => simp [hcase, htail]

/-- Every entry the per-id dispatch sends to the result list belongs to the
requesting account. -/
theorem lookupOneId_inl_account (store : LookupStore) (ie im it : Bool)
    (tn : List DataType) (reqId : Nat) (id : MaybeUnparsable BlobId) (info : BlobInfo)
    (h : lookupOneId store ie im it tn reqId id = .inl info) :
    info.id.kind.accountId = reqId := by
  cases id with
  | parseError raw => simp [lookupOneId] at h
  | value bid =>
    obtain ⟨kind⟩ := bid
    cases kind with
    | linked a c d =>
      by_cases ha : a = reqId
      · simp only [lookupOneId, ha, if_true] at h
        rw [if_neg (fun hcon => hcon rfl)] at h
        split at h
        case _ => split at h <;> (simp only [Sum.inl.injEq] at h; subst h; rfl)
        case _ => simp only [Sum.inl.injEq] at h; subst h; rfl
      · simp [lookupOneId, ha] at h
    | linkedMaildir a d =>
      by_cases ha : a = reqId
      · simp only [lookupOneId, ha, if_true, Sum.inl.injEq] at h
        subst h
        rfl
      · simp [lookupOneId, ha] at h
    | temporary a ts sq =>
      by_cases ha : a = reqId
      · simp only [lookupOneId, ha, if_true, Sum.inl.injEq] at h
        subst h
        rfl
      · simp [lookupOneId, ha] at h

/-- Every entry of the accumulated result list belongs to the requesting
account. -/
theorem lookupIds_list_account (store : LookupStore) (ie im it : Bool)
    (tn : List DataType) (reqId : Nat) (ids : List (MaybeUnparsable BlobId)) :
    ∀ info ∈ (lookupIds store ie im it tn reqId ids).1,
      info.id.kind.accountId = reqId := by
  induction ids with
  | nil => intro info hinfo; cases hinfo
  | cons id rest ih =>
    intro info hinfo
    rw [lookupIds] at hinfo
    cases hcase : lookupOneId store ie im it tn reqId id with
    | inl info0 =>
      rw [hcase] at hinfo
      cases hinfo with
      | head => exact lookupOneId_inl_account store ie im it tn reqId id info hcase
      | tail _ htail => exact ih info htail
    | inr nf =>
      rw [hcase] at hinfo
      exact ih info hinfo

/-- Claim C3: every well-formed requested blob id whose kind carries an
account id different from the request's account is placed in not_found and
never appears in the result list. -/
theorem claim_C3 (store : LookupStore) (req : BlobLookupRequest) (bid : BlobId)
    (resp : BlobLookupResponse)
    (hmem : MaybeUnparsable.value bid ∈ req.ids)
    (hacct : bid.kind.accountId ≠ req.accountId)
    (hok : blobLookup store req = .ok resp) :
    MaybeUnparsable.value bid ∈ resp.notFound ∧ bid ∉ resp.list.map BlobInfo.id := by
  unfold blobLookup at hok
  cases hpt : parseTypeNames req.typeNames with
  | error e => rw [hpt] at hok; cases hok
  | ok tup =>
    obtain ⟨tn, ie, im, it⟩ := tup
    rw [hpt] at hok
    simp only [Except.ok.injEq] at hok
    subst hok
    constructor
    · exact lookupIds_cross_mem store ie im it tn req.accountId bid req.ids hmem hacct
    · intro hin
      rw [List.mem_map] at hin
      obtain ⟨info, hinfo, heq⟩ := hin
      have hA := lookupIds_list_account store ie im it tn req.accountId req.ids info hinfo
      rw [heq] at hA
      exact hacct hA

/-- Claim C3 witness: the cross-account routing settled at a concrete
request. -/
theorem claim_C3_witness :
    MaybeUnparsable.value bidCross ∈ reqC3.ids
    ∧ bidCross.kind.accountId ≠ reqC3.accountId
    ∧ MaybeUnparsable.value bidCross
        ∈ (⟨1, [⟨⟨.linkedMaildir 1 4⟩, [(.email, [idFromParts 3 4]), (.thread, [3])]⟩],
            [.value bidCross]⟩ : BlobLookupResponse).notFound :=
  ⟨by decide, by decide,
    (claim_C3 lstoreEx reqC3 bidCross
      ⟨1, [⟨⟨.linkedMaildir 1 4⟩, [(.email, [idFromParts 3 4]), (.thread, [3])]⟩],
        [.value bidCross]⟩
      (by decide) (by decide) rfl).1⟩

/-- A bitwise or is zero exactly when both sides are. -/
theorem natOrEqZero (x y : Nat) : x ||| y = 0 ↔ x = 0 ∧ y = 0 := by
  constructor
  · intro h
    constructor
    · by_contra hx
      obtain ⟨i, hi⟩ := Nat.ne_zero_implies_bit_true hx
      have hb : (x ||| y).testBit i = true := by
        simp [Nat.testBit_or, hi]
      rw [h] at hb
      simp at hb
    · by_contra hy
      obtain ⟨i, hi⟩ := Nat.ne_zero_implies_bit_true hy
      have hb : (x ||| y).testBit i = true := by
        simp [Nat.testBit_or, hi]
      rw [h] at hb
      simp at hb
  · rintro ⟨rfl, rfl⟩
    rfl

/-- A flag test against a union of flags is the disjunction of the tests. -/
theorem hasFlag_or_flag (a b c : Nat) : hasFlag a (b ||| c) = (hasFlag a b || hasFlag a c) := by
  have h : (a &&& b ||| a &&& c ≠ 0) ↔ (a &&& b ≠ 0 ∨ a &&& c ≠ 0) := by
    rw [ne_eq, natOrEqZero]
    tauto
  simp [hasFlag, Nat.and_or_distrib_left, h]

/-- A flag test on a union of flag words is the disjunction of the tests. -/
theorem hasFlag_or_left (a b c : Nat) : hasFlag (a ||| b) c = (hasFlag a c || hasFlag b c) := by
  have h1 : (a ||| b) &&& c = a &&& c ||| b &&& c := by
    rw [Nat.and_comm, Nat.and_or_distrib_left, Nat.and_comm c a, Nat.and_comm c b]
  have h2 : (a &&& c ||| b &&& c ≠ 0) ↔ (a &&& c ≠ 0 ∨ b &&& c ≠ 0) := by
    rw [ne_eq, natOrEqZero]
    tauto
  simp [hasFlag, h1, h2]

/-- Setting further flags never clears a set flag. -/
theorem hasFlag_mono_or (a b c : Nat) (h : hasFlag a c = true) :
    hasFlag (a ||| b) c = true := by
  rw [hasFlag_or_left, h, Bool.true_or]

/-- A recipient already carrying DSN_SENT or NOTIFY_NEVER is skipped whole
by the build_dsn loop body. -/
theorem processRecipient_skip (now : Nat) (domains : List Domain) (r : Recipient)
    (h : hasFlag r.flags (RCPT_DSN_SENT ||| RCPT_NOTIFY_NEVER) = true) :
    processRecipient now domains r = ⟨r, "", none⟩ := by
  unfold processRecipient
  rw [if_pos h]

/-- A recipient already carrying DSN_SENT is skipped whole by the build_dsn
loop body. -/
theorem processRecipient_dsnSent (now : Nat) (domains : List Domain) (r : Recipient)
    (h : hasFlag r.flags RCPT_DSN_SENT = true) :
    processRecipient now domains r = ⟨r, "", none⟩ := by
  apply processRecipient_skip
  rw [hasFlag_or_flag, h, Bool.true_or]

/-- getD through a map, within bounds. -/
theorem getD_map_lt {α β : Type} (f : α → β) (l : List α) (i : Nat) (d1 : β) (d2 : α)
    (hi : i < l.length) : (l.map f).getD i d1 = f (l.getD i d2) := by
  rw [List.getD_eq_getElem?_getD, List.getD_eq_getElem?_getD, List.getElem?_map,
    List.getElem?_eq_getElem hi]
  rfl

/-- The recipient list build_dsn's loop returns is the pointwise image of
the loop body. -/
theorem buildDsnLoop_recipients (now : Nat) (domains : List Domain) (rs : List Recipient) :
    (buildDsnLoop now domains rs).recipients
      = rs.map (fun r => (processRecipient now domains r).rcpt) := by
  induction rs with
  | nil => rfl
  | cons r rest ih => simp [buildDsnLoop, ih]

/-- The recipients build_dsn persists are the pointwise image of the loop
body, whether or not a payload was produced. -/
theorem buildDsn_recipients (cfg : QueueConfig) (now : Nat) (msg : Message) :
    (buildDsn cfg now msg).1.recipients
      = msg.recipients.map (fun r => (processRecipient now msg.domains r).rcpt) := by
  unfold buildDsn
  dsimp only
  split
  · exact buildDsnLoop_recipients now msg.domains msg.recipients
  · split <;> simp [buildDsnLoop_recipients]

/-- Claim C2: a recipient whose flags contain DSN_SENT or NOTIFY_NEVER is
skipped by build_dsn — it is left unchanged and contributes no
per-recipient block and no text line — and over every sequence of build_dsn
invocations a recipient carrying DSN_SENT contributes nothing, so no
DSN_SENT recipient is ever emitted in a subsequent DSN. -/
theorem claim_C2 :
    (∀ (now : Nat) (domains : List Domain) (r : Recipient),
      hasFlag r.flags (RCPT_DSN_SENT ||| RCPT_NOTIFY_NEVER) = true →
      processRecipient now domains r = ⟨r, "", none⟩)
    ∧ (∀ (cfg : QueueConfig) (nows : List Nat) (msg : Message) (i : Nat),
        hasFlag (msg.recipients.getD i defaultRecipient).flags RCPT_DSN_SENT = true →
        ∀ e ∈ buildDsnEmissions cfg nows msg i, e = ("", none)) := by
  refine ⟨processRecipient_skip, ?_⟩
  intro cfg nows
  induction nows with
  | nil =>
    intro msg i h e he
    cases he
  | cons now rest ih =>
    intro msg i h e he
    rw [buildDsnEmissions] at he
    have hr := processRecipient_dsnSent now msg.domains _ h
    cases he with
    | head => rw [hr]
    | tail _ htail =>
      apply ih _ i _ e htail
      by_cases hi : i < msg.recipients.length
      · rw [buildDsn_recipients, getD_map_lt _ _ _ _ defaultRecipient hi, hr]
        exact h
      · rw [List.getD_eq_default _ _ (Nat.le_of_not_lt hi)] at h
        exact absurd h (by decide)

/-- Claim C2 witness: the skip and the absence of emissions settled at a
concrete DSN_SENT recipient over two build_dsn invocations. -/
theorem claim_C2_witness :
    hasFlag rcptSentEx.flags (RCPT_DSN_SENT ||| RCPT_NOTIFY_NEVER) = true
    ∧ processRecipient 0 [domEx] rcptSentEx = ⟨rcptSentEx, "", none⟩
    ∧ ∀ e ∈ buildDsnEmissions cfgEx [0, 50] msgC2 0, e = ("", none) :=
  ⟨by decide, claim_C2.1 0 [domEx] rcptSentEx (by decide),
    claim_C2.2 cfgEx [0, 50] msgC2 0 (by decide)⟩

/-- The flattened second components of an image list are empty exactly when
every element's are. -/
theorem mapFlatMapNeNil {α β γ : Type} (l : List α) (f : α → β × List γ) :
    (l.map f).flatMap Prod.snd ≠ [] ↔ ∃ x ∈ l, (f x).2 ≠ [] := by
  induction l with
  | nil => simp
  | cons a rest ih =>
    simp only [List.map_cons, List.flatMap_cons, ne_eq, List.append_eq_nil,
      List.mem_cons, not_and]
    constructor
    · intro hcon
      by_cases ha : (f a).2 = []
      · have := hcon ha
        obtain ⟨x, hx, hfx⟩ := ih.mp this
        exact ⟨x, .inr hx, hfx⟩
      · exact ⟨a, .inl rfl, ha⟩
    · rintro ⟨x, hx | hx, hfx⟩
      · intro ha
        rw [hx] at hfx
        exact absurd ha hfx
      · intro _
        exact ih.mpr ⟨x, hx, hfx⟩

/-- The double-bounce loop body marks exactly the eligible effectively
permanently-failed recipients. -/
theorem doubleBounceStep_fst (domains : List Domain) (r : Recipient) :
    (doubleBounceStep domains r).1
      = if !hasFlag r.flags (RCPT_DSN_SENT ||| RCPT_NOTIFY_NEVER)
            && isPermFailedEff domains r then
          { r with flags := r.flags ||| RCPT_DSN_SENT }
        else r := by
  unfold doubleBounceStep isPermFailedEff
  cases hel : hasFlag r.flags (RCPT_DSN_SENT ||| RCPT_NOTIFY_NEVER)
  · generalize (domains.getD r.domainIdx defaultDomain) = d0
    cases hst : r.status
    case scheduled => cases hds : d0.status <;> simp [hel, hst, hds]
    all_goals simp [hel, hst]
  · simp [hel]

/-- The double-bounce loop body emits a line exactly for the eligible
effectively permanently-failed recipients. -/
theorem doubleBounceStep_snd_ne (domains : List Domain) (r : Recipient) :
    ((doubleBounceStep domains r).2 ≠ []) ↔
      (!hasFlag r.flags (RCPT_DSN_SENT ||| RCPT_NOTIFY_NEVER)
        && isPermFailedEff domains r) = true := by
  unfold doubleBounceStep isPermFailedEff
  cases hel : hasFlag r.flags (RCPT_DSN_SENT ||| RCPT_NOTIFY_NEVER)
  · generalize (domains.getD r.domainIdx defaultDomain) = d0
    cases hst : r.status
    case scheduled => cases hds : d0.status <;> simp [hel, hst, hds]
    all_goals simp [hel, hst]
  · simp [hel]

/-- Claim C7: on a message whose return path is empty, send_dsn queues no
DSN; every due domain's notify deadline is set to expires + 10 seconds;
each not-yet-notified, notifiable, effectively permanently-failed recipient
is marked DSN_SENT (and only those recipients change); and the
double-bounce log is emitted exactly when such a recipient exists. -/
theorem claim_C7 (cfg : QueueConfig) (now : Nat) (msg : Message)
    (h : msg.returnPath = "") :
    (sendDsn cfg now msg).2.1 = none
    ∧ (sendDsn cfg now msg).1.domains = msg.domains.map (fun d =>
        if d.notify.due ≤ now then { d with notify := ⟨d.notify.inner, d.expires + 10⟩ }
        else d)
    ∧ (sendDsn cfg now msg).1.recipients = msg.recipients.map (fun r =>
        if !hasFlag r.flags (RCPT_DSN_SENT ||| RCPT_NOTIFY_NEVER)
            && isPermFailedEff msg.domains r then
          { r with flags := r.flags ||| RCPT_DSN_SENT }
        else r)
    ∧ ((sendDsn cfg now msg).2.2 ≠ [] ↔
        ∃ r ∈ msg.recipients,
          (!hasFlag r.flags (RCPT_DSN_SENT ||| RCPT_NOTIFY_NEVER)
            && isPermFailedEff msg.domains r) = true) := by
  have hba : ¬ (msg.returnPath ≠ "") := by simp [h]
  unfold sendDsn
  rw [if_neg hba]
  unfold handleDoubleBounce
  dsimp only
  refine ⟨rfl, rfl, ?_, ?_⟩
  · rw [List.map_map]
    exact List.map_congr_left fun r _ => doubleBounceStep_fst msg.domains r
  · rw [mapFlatMapNeNil]
    constructor
    · rintro ⟨r, hr, hne⟩
      exact ⟨r, hr, (doubleBounceStep_snd_ne msg.domains r).mp hne⟩
    · rintro ⟨r, hr, hcond⟩
      exact ⟨r, hr, (doubleBounceStep_snd_ne msg.domains r).mpr hcond⟩

/-- Claim C7 witness: the double-bounce path settled at a concrete message
with an empty return path. -/
theorem claim_C7_witness :
    msgC7.returnPath = ""
    ∧ (sendDsn cfgEx 5 msgC7).2.1 = none
    ∧ (sendDsn cfgEx 5 msgC7).1.domains = msgC7.domains.map (fun d =>
        if d.notify.due ≤ 5 then { d with notify := ⟨d.notify.inner, d.expires + 10⟩ }
        else d) :=
  ⟨rfl, (claim_C7 cfgEx 5 msgC7 rfl).1, (claim_C7 cfgEx 5 msgC7 rfl).2.1⟩

/-- Claim C10: an eligible (not yet notified, not NOTIFY_NEVER) recipient
whose effective status is Completed or PermanentFailure gets DSN_SENT and
STATUS_CHANGED set even when the matching NOTIFY flag is absent — in which
case it emits no block and no text line — while a recipient reported
through a TemporaryFailure delay line is left entirely unchanged, so delay
notifications may repeat. -/
theorem claim_C10 (now : Nat) (domains : List Domain) (r : Recipient)
    (helig : hasFlag r.flags (RCPT_DSN_SENT ||| RCPT_NOTIFY_NEVER) = false) :
    (∀ resp, r.status = .completed resp →
      ((processRecipient now domains r).rcpt.flags
          = r.flags ||| (RCPT_DSN_SENT ||| RCPT_STATUS_CHANGED)
        ∧ (hasFlag r.flags RCPT_NOTIFY_SUCCESS = false →
            (processRecipient now domains r).block = ""
            ∧ (processRecipient now domains r).txt = none)))
    ∧ (∀ resp, r.status = .permanentFailure resp →
      ((processRecipient now domains r).rcpt.flags
          = r.flags ||| (RCPT_DSN_SENT ||| RCPT_STATUS_CHANGED)
        ∧ (hasFlag r.flags RCPT_NOTIFY_FAILURE = false →
            (processRecipient now domains r).block = ""
            ∧ (processRecipient now domains r).txt = none)))
    ∧ (∀ err, r.status = .scheduled →
        (domains.getD r.domainIdx defaultDomain).status = .permanentFailure err →
        ((processRecipient now domains r).rcpt.flags
            = r.flags ||| (RCPT_DSN_SENT ||| RCPT_STATUS_CHANGED)
          ∧ (hasFlag r.flags RCPT_NOTIFY_FAILURE = false →
              (processRecipient now domains r).block = ""
              ∧ (processRecipient now domains r).txt = none)))
    ∧ (∀ s, (processRecipient now domains r).txt = some (.delay, s) →
        (processRecipient now domains r).rcpt = r) := by
  have hnot : ¬ (hasFlag r.flags (RCPT_DSN_SENT ||| RCPT_NOTIFY_NEVER) = true) := by
    simp [helig]
  refine ⟨?_, ?_, ?_, ?_⟩
  · intro resp hst
    unfold processRecipient
    rw [if_neg hnot, hst]
    dsimp only
    constructor
    · split <;> rfl
    · intro hns
      have hcond : (!hasFlag (r.flags ||| (RCPT_DSN_SENT ||| RCPT_STATUS_CHANGED))
          RCPT_NOTIFY_SUCCESS) = true := by
        rw [hasFlag_or_left, hns]
        decide
      rw [if_pos hcond]
      exact ⟨rfl, rfl⟩
  · intro resp hst
    unfold processRecipient
    rw [if_neg hnot, hst]
    dsimp only
    constructor
    · split <;> rfl
    · intro hnf
      have hcond : (!hasFlag (r.flags ||| (RCPT_DSN_SENT ||| RCPT_STATUS_CHANGED))
          RCPT_NOTIFY_FAILURE) = true := by
        rw [hasFlag_or_left, hnf]
        decide
      rw [if_pos hcond]
      exact ⟨rfl, rfl⟩
  · intro err hst hds
    unfold processRecipient
    rw [if_neg hnot, hst]
    dsimp only
    rw [hds]
    dsimp only
    constructor
    · split <;> rfl
    · intro hnf
      have hcond : (!hasFlag (r.flags ||| (RCPT_DSN_SENT ||| RCPT_STATUS_CHANGED))
          RCPT_NOTIFY_FAILURE) = true := by
        rw [hasFlag_or_left, hnf]
        decide
      rw [if_pos hcond]
      exact ⟨rfl, rfl⟩
  · intro s htxt
    unfold processRecipient at htxt ⊢
    rw [if_neg hnot] at htxt ⊢
    cases hst : r.status
    case completed resp =>
      simp only [hst] at htxt
      split at htxt <;> simp at htxt
    case temporaryFailure resp =>
      simp only [hst] at htxt ⊢
      by_cases hg : (domains.getD r.domainIdx defaultDomain).notify.due ≤ now
          ∧ hasFlag r.flags RCPT_NOTIFY_DELAY = true
      · rw [if_pos hg]
      · rw [if_neg hg] at htxt
        simp at htxt
    case permanentFailure resp =>
      simp only [hst] at htxt
      split at htxt <;> simp at htxt
    case scheduled =>
      simp only [hst] at htxt ⊢
      cases hds : (domains.getD r.domainIdx defaultDomain).status
      case completed v =>
        simp only [hds] at htxt
        exact Option.noConfusion htxt
      case permanentFailure err =>
        simp only [hds] at htxt
        split at htxt <;> simp at htxt
      case temporaryFailure err =>
        simp only [hds] at htxt ⊢
        by_cases hg : (domains.getD r.domainIdx defaultDomain).notify.due ≤ now
            ∧ hasFlag r.flags RCPT_NOTIFY_DELAY = true
        · rw [if_pos hg]
        · rw [if_neg hg] at htxt
          simp at htxt
      case scheduled =>
        simp only [hds] at htxt ⊢
        by_cases hg : (domains.getD r.domainIdx defaultDomain).notify.due ≤ now
            ∧ hasFlag r.flags RCPT_NOTIFY_DELAY = true
        · rw [if_pos hg]
        · rw [if_neg hg] at htxt
          simp at htxt

/-- Claim C10 witness: the flag updates without emission settled at a
delivered recipient lacking NOTIFY_SUCCESS. -/
theorem claim_C10_witness :
    hasFlag rcptC10.flags (RCPT_DSN_SENT ||| RCPT_NOTIFY_NEVER) = false
    ∧ (processRecipient 3 [domEx] rcptC10).rcpt.flags
        = rcptC10.flags ||| (RCPT_DSN_SENT ||| RCPT_STATUS_CHANGED)
    ∧ (processRecipient 3 [domEx] rcptC10).block = ""
    ∧ (processRecipient 3 [domEx] rcptC10).txt = none :=
  ⟨by decide,
    ((claim_C10 3 [domEx] rcptC10 (by decide)).1 _ rfl).1,
    (((claim_C10 3 [domEx] rcptC10 (by decide)).1 _ rfl).2 (by decide)).1,
    (((claim_C10 3 [domEx] rcptC10 (by decide)).1 _ rfl).2 (by decide)).2⟩

/-- Claim C8 counterexample: the per-recipient block of a concrete
permanently failed recipient carries its fields in the order
Original-Recipient, Final-Recipient, Action, Status, Diagnostic-Code,
Remote-MTA — which is not a subsequence of the claimed order (Remote-MTA
before Diagnostic-Code), while it does follow the order the code writes. -/
theorem claim_C8_counterexample :
    lineLabels (processRecipient 0 [defaultDomain] rcpt550).block
      = ["Original-Recipient", "Final-Recipient", "Action", "Status",
        "Diagnostic-Code", "Remote-MTA"]
    ∧ isSubseqOf (lineLabels (processRecipient 0 [defaultDomain] rcpt550).block)
        claimedFieldOrder = false
    ∧ isSubseqOf (lineLabels (processRecipient 0 [defaultDomain] rcpt550).block)
        actualFieldOrder = true := by
  refine ⟨by decide, by decide, by decide⟩

/-- Claim C8 (amended): the delivery-status part opens with Reporting-MTA,
Arrival-Date, the optional Original-Envelope-Id and a blank line; and every
per-recipient block is a CRLF-joined line list whose fields appear in the
fixed order Original-Recipient (optional), Final-Recipient, Action, Status
(optional for domain-status blocks), Diagnostic-Code (optional), Remote-MTA
(always present in recipient-status blocks, optional in domain-status
blocks), Will-Retry-Until (optional) — i.e. with Diagnostic-Code written
before Remote-MTA, not after it. -/
theorem claim_C8 :
    (∀ (msg : Message) (mta : String),
      writeDsnHeaders msg mta = joinCrlf (headerLines msg mta) ++ crlf)
    ∧ (∀ (msg : Message) (mta : String),
        (headerLines msg mta).map lineLabel
          = ["Reporting-MTA", "Arrival-Date"]
            ++ (match msg.envId with
                | some _ => ["Original-Envelope-Id"]
                | none => []))
    ∧ (∀ (r : Recipient) (st : RcptStatus) (now : Nat) (dom : Domain),
        rcptWriteDsn r ++ rcptStatusDsn st ++ domainWillRetryUntil now dom
          = joinCrlf (rcptBlockLines r st ++ willRetryLines now dom))
    ∧ (∀ (r : Recipient) (st : DomStatus) (now : Nat) (dom : Domain),
        rcptWriteDsn r ++ domStatusDsn st ++ domainWillRetryUntil now dom
          = joinCrlf (domBlockLines r st now dom))
    ∧ (∀ (r : Recipient) (st : RcptStatus) (now : Nat) (dom : Domain),
        isSubseqOf (((rcptBlockLines r st ++ willRetryLines now dom)).map lineLabel)
          actualFieldOrder = true)
    ∧ (∀ (r : Recipient) (st : DomStatus) (now : Nat) (dom : Domain),
        isSubseqOf ((domBlockLines r st now dom).map lineLabel)
          actualFieldOrder = true) := by
  refine ⟨?_, ?_, ?_, ?_, ?_, ?_⟩
  · intro msg mta
    cases henv : msg.envId <;>
      simp [writeDsnHeaders, joinCrlf, headerLines, henv, String.append_assoc]
  · intro msg mta
    cases henv : msg.envId <;> simp only [headerLines, henv] <;> rfl
  · intro r st now2 dom
    by_cases hw : dom.expires > now2 <;>
      cases ho : r.orcpt <;>
        rcases st with _ | v | e | e <;>
          simp [rcptWriteDsn, rcptStatusDsn, statusDsnAction, rcptStatusDsnStatus,
            rcptStatusDsnDiagnostic, rcptStatusDsnRemoteMta, respDsnDiagnostic,
            joinCrlf, rcptBlockLines, dsnActionName, rcptStatusCode, rcptRemoteName,
            willRetryLines, domainWillRetryUntil, ho, hw, String.append_assoc]
  · intro r st now2 dom
    by_cases hw : dom.expires > now2 <;>
      cases ho : r.orcpt <;>
        rcases st with _ | v | e | e <;>
          (try rcases e with rr | s0 | d0 | d0 | d0 | s0 | _ | _ | s0) <;>
            simp [rcptWriteDsn, domStatusDsn, statusDsnAction, domStatusDsnStatus,
              domStatusDsnDiagnostic, domStatusDsnRemoteMta, respDsnDiagnostic,
              joinCrlf, domBlockLines, dsnActionName, willRetryLines,
              domainWillRetryUntil, ho, hw, String.append_assoc]
  · intro r st now2 dom
    by_cases hw : dom.expires > now2 <;>
      cases ho : r.orcpt <;>
        rcases st with _ | v | e | e <;>
          simp only [rcptBlockLines, willRetryLines, ho, hw, if_true, if_false,
            ite_true, ite_false] <;> rfl
  · intro r st now2 dom
    by_cases hw : dom.expires > now2 <;>
      cases ho : r.orcpt <;>
        rcases st with _ | v | e | e <;>
          (try rcases e with rr | s0 | d0 | d0 | d0 | s0 | _ | _ | s0) <;>
            simp only [domBlockLines, willRetryLines, ho, hw, if_true, if_false,
              ite_true, ite_false] <;> rfl

/-- Claim C1 witness: the failed commit settled at a concrete store and
builder. -/
theorem claim_C1_witness :
    storeC1.writeOk = false
    ∧ (commitChanges storeC1 1 ⟨7, [(1, 2)]⟩).2 = .error .serverPartialFail
    ∧ (commitChanges (beginChanges storeC1 1).1 1 ⟨5, []⟩).1.log = storeC1.log :=
  ⟨rfl,
    (claim_C1 storeC1 1 ⟨7, [(1, 2)]⟩ (beginChanges storeC1 1).1 ⟨5, []⟩ rfl rfl).1,
    (claim_C1 storeC1 1 ⟨7, [(1, 2)]⟩ (beginChanges storeC1 1).1 ⟨5, []⟩ rfl rfl).2.2.2.1⟩

end MailServer
